import Mathlib

/-!
# PipeSpy: the hooked pipe primitives of `src/pipe_spy/pipe_spy.cpp`

A shallow embedding of the six hook bodies (`ReadFile_Hooked`, `WriteFile_Hooked`,
`DuplicateHandle_Hooked`, `CreatePipe_Hooked`, `CreateNamedPipeA_Hooked`,
`CreateNamedPipeW_Hooked`), of the readiness gate (`hook_delay`,
`GET_ORIGINAL_FUNCTION`) and of the two handle sets `read_pipes` / `write_pipes`.

Modelling decisions

* A call of a body is a function from the process state to a `Result`: how the
  call ended (returned a value, or stopped at an access violation), the state it
  left, and the list of observable events it produced in program order (polls of
  the hook record, log records, sleeps, the forwarded call).
* Process memory is a partial store: a read of an unmapped address (NULL is
  never mapped) is an access violation.
* The original primitives, `kb::hook::is_hooked` and `kb::str::to_str` are not
  part of the repository; they are parameters of the model.
* `hook_delay` may loop forever, so the bodies take a fuel bound on the number
  of polls; `none` means that the gate was still closed when the fuel ran out.
-/

namespace PipeSpy

/-! ## Windows scalar types -/

/-- HANDLE is an opaque pointer-sized value; `0` is `NULL`. -/
abbrev HANDLE := Nat

/-- DWORD argument values (no arithmetic is performed on them by the bodies). -/
abbrev DWORD := Nat

/-- BOOL is a C `int`; `FALSE` is zero and every other value is truthy. -/
abbrev BOOL := Int

/-- The `FALSE` constant of the Windows headers. -/
abbrev FALSE : BOOL := 0

/-! ## Observable events -/

/-- Severity of a log record (`LOG_DEBUG`, `LOG_INFO`, `LOG_WARN`). -/
inductive Level
  | debug
  | info
  | warn
  deriving DecidableEq, Repr

/-- One formatted argument of a log record. -/
inductive Arg
  | str (s : String)
  | ptr (p : Nat)
  | dword (n : Nat)
  | int (i : Int)
  | text (bytes : List Nat)
  deriving DecidableEq, Repr

/-- Arguments of `ReadFile`. -/
structure ReadFileArgs where
  hFile : HANDLE
  lpBuffer : Nat
  nNumberOfBytesToRead : DWORD
  lpNumberOfBytesRead : Nat
  lpOverlapped : Nat
  deriving DecidableEq, Repr

/-- Arguments of `WriteFile`. -/
structure WriteFileArgs where
  hFile : HANDLE
  lpBuffer : Nat
  nNumberOfBytesToWrite : DWORD
  lpNumberOfBytesWritten : Nat
  lpOverlapped : Nat
  deriving DecidableEq, Repr

/-- Arguments of `DuplicateHandle`. -/
structure DuplicateHandleArgs where
  hSourceProcessHandle : HANDLE
  hSourceHandle : HANDLE
  hTargetProcessHandle : HANDLE
  lpTargetHandle : Nat
  dwDesiredAccess : DWORD
  bInheritHandle : BOOL
  dwOptions : DWORD
  deriving DecidableEq, Repr

/-- Arguments of `CreatePipe`. -/
structure CreatePipeArgs where
  hReadPipe : Nat
  hWritePipe : Nat
  lpPipeAttributes : Nat
  nSize : DWORD
  deriving DecidableEq, Repr

/-- Arguments of `CreateNamedPipeA` and `CreateNamedPipeW`. -/
structure CreateNamedPipeArgs where
  lpName : Nat
  dwOpenMode : DWORD
  dwPipeMode : DWORD
  nMaxInstances : DWORD
  nOutBufferSize : DWORD
  nInBufferSize : DWORD
  nDefaultTimeOut : DWORD
  lpSecurityAttributes : Nat
  deriving DecidableEq, Repr

/-- A forwarded call: which original primitive is called, with which arguments. -/
inductive Call
  | ReadFile (a : ReadFileArgs)
  | WriteFile (a : WriteFileArgs)
  | DuplicateHandle (a : DuplicateHandleArgs)
  | CreatePipe (a : CreatePipeArgs)
  | CreateNamedPipeA (a : CreateNamedPipeArgs)
  | CreateNamedPipeW (a : CreateNamedPipeArgs)
  deriving DecidableEq, Repr

/-- The observable actions of a hook body, in program order. -/
inductive Event
  | is_hooked (function : String) (installed : Bool)
  | log (level : Level) (fmt : String) (args : List Arg)
  | Sleep (ms : Nat)
  | get_hooked_fn (function : String)
  | call (c : Call)
  deriving DecidableEq, Repr

/-- A log record: level, format string and arguments. -/
structure Record where
  level : Level
  fmt : String
  args : List Arg
  deriving DecidableEq, Repr

/-- The log records of a trace, in order. -/
def logs : List Event → List Record
  | [] => []
  | Event.log l f a :: es => ⟨l, f, a⟩ :: logs es
  | _ :: es => logs es

/-- The forwarded calls of a trace, in order. -/
def calls : List Event → List Call
  | [] => []
  | Event.call c :: es => c :: calls es
  | _ :: es => calls es

/-- The sleeps of a trace, in order. -/
def sleeps : List Event → List Nat
  | [] => []
  | Event.Sleep ms :: es => ms :: sleeps es
  | _ :: es => sleeps es

/-! ## Process memory -/

/-- Process memory as the bodies and the primitives see it: typed partial
views (`none` is an unmapped address) for bytes, HANDLE cells and DWORD cells,
and the text the log sink renders for a `char*` / `wchar_t*` argument. -/
structure Mem where
  byte : Nat → Option Nat
  handle : Nat → Option HANDLE
  dword : Nat → Option Nat
  cstr : Nat → List Nat
  wstr : Nat → List Nat

/-- The read `*p` of a `HANDLE*`: an access violation (`none`) at NULL or at an
unmapped address. -/
def Mem.load_handle (m : Mem) (p : Nat) : Option HANDLE :=
  if p = 0 then none else m.handle p

/-- The read of one `char` at address `p`. -/
def Mem.load_byte (m : Mem) (p : Nat) : Option Nat :=
  if p = 0 then none else m.byte p

/-- The constructor `std::string{p, n}`: copies the `n` chars at `p`, `p+1`, ... -/
def Mem.read_bytes (m : Mem) (p : Nat) : Nat → Option (List Nat)
  | 0 => some []
  | n + 1 =>
    match m.load_byte p, m.read_bytes (p + 1) n with
    | some b, some bs => some (b :: bs)
    | _, _ => none

/-! ## External collaborators -/

/-- The original entry points that `KB_HOOK_GET_HOOKED_FN` yields (each maps the
arguments and the memory before the call to the return value and the memory
after it), and the string conversion `kb::str::to_str`. -/
structure Env where
  ReadFile : ReadFileArgs → Mem → BOOL × Mem
  WriteFile : WriteFileArgs → Mem → BOOL × Mem
  DuplicateHandle : DuplicateHandleArgs → Mem → BOOL × Mem
  CreatePipe : CreatePipeArgs → Mem → BOOL × Mem
  CreateNamedPipeA : CreateNamedPipeArgs → Mem → HANDLE × Mem
  CreateNamedPipeW : CreateNamedPipeArgs → Mem → HANDLE × Mem
  to_str : List Nat → List Nat

/-- The six hooked symbols, as the `FUNC` parameter of `GET_ORIGINAL_FUNCTION`. -/
inductive Symbol
  | ReadFile
  | WriteFile
  | DuplicateHandle
  | CreatePipe
  | CreateNamedPipeA
  | CreateNamedPipeW
  deriving DecidableEq, Repr

/-- The stringification `#FUNC`. -/
def Symbol.name : Symbol → String
  | .ReadFile => "ReadFile"
  | .WriteFile => "WriteFile"
  | .DuplicateHandle => "DuplicateHandle"
  | .CreatePipe => "CreatePipe"
  | .CreateNamedPipeA => "CreateNamedPipeA"
  | .CreateNamedPipeW => "CreateNamedPipeW"

/-! ## Process state -/

/-- The mutable state of the module: the two global sets, the initialisation
flags of the function-local statics `_FUNC`, and the process memory. -/
structure State where
  read_pipes : Finset HANDLE
  write_pipes : Finset HANDLE
  resolved : Symbol → Bool
  mem : Mem

/-- How a call of a body ended. -/
inductive Outcome (ρ : Type)
  | returned (value : ρ)
  | crashed
  deriving DecidableEq, Repr

/-- The result of a call that got past the gate: outcome, final state, events. -/
structure Result (ρ : Type) where
  outcome : Outcome ρ
  st : State
  events : List Event

/-! ## The log statements of the bodies -/

/-- The `LOG_DEBUG` statement of `hook_delay`. -/
def hook_delay_log (function : String) : Event :=
  Event.log Level.debug "\x7b\x7d -> Sleeping 10 ms" [Arg.str function]

/-- The `LOG_INFO` statement of `ReadFile_Hooked`. -/
def ReadFile_log (a : ReadFileArgs) (string_buffer : List Nat) : Event :=
  Event.log Level.info "\x7b\x7d -> handle: \x7b\x7d, size: \x7b\x7d, buffer:\n\x7b\x7d"
    [Arg.str "ReadFile_Hooked", Arg.ptr a.hFile, Arg.dword a.nNumberOfBytesToRead,
      Arg.text string_buffer]

/-- The `LOG_WARN` statement of `ReadFile_Hooked`. -/
def ReadFile_warn (a : ReadFileArgs) : Event :=
  Event.log Level.warn "Failed to read from file \x7b\x7d" [Arg.ptr a.hFile]

/-- The `LOG_DEBUG` statement of `WriteFile_Hooked`. -/
def WriteFile_log (a : WriteFileArgs) (string_buffer : List Nat) : Event :=
  Event.log Level.debug "\x7b\x7d -> handle: \x7b\x7d, size: \x7b\x7d, buffer:\n\x7b\x7d"
    [Arg.str "WriteFile_Hooked", Arg.ptr a.hFile, Arg.dword a.nNumberOfBytesToWrite,
      Arg.text string_buffer]

/-- The `LOG_WARN` statement of `WriteFile_Hooked`. -/
def WriteFile_warn : Event :=
  Event.log Level.warn "Failed to write to file" []

/-- The `LOG_DEBUG` statement of `DuplicateHandle_Hooked`. -/
def DuplicateHandle_log (a : DuplicateHandleArgs) (result : BOOL) (target : HANDLE) : Event :=
  Event.log Level.debug
    "\x7b\x7d -> result: \x7b\x7d, source: \x7b\x7d, target: \x7b\x7d"
    [Arg.str "DuplicateHandle_Hooked", Arg.int result, Arg.ptr a.hSourceHandle, Arg.ptr target]

/-- The first `LOG_INFO` statement of `DuplicateHandle_Hooked`. -/
def DuplicateHandle_read_log : Event :=
  Event.log Level.info "\x7b\x7d -> Duplication of read pipe detected"
    [Arg.str "DuplicateHandle_Hooked"]

/-- The second `LOG_INFO` statement of `DuplicateHandle_Hooked`. -/
def DuplicateHandle_write_log : Event :=
  Event.log Level.info "\x7b\x7d -> Duplication of write pipe detected"
    [Arg.str "DuplicateHandle_Hooked"]

/-- The `LOG_INFO` statement of `CreatePipe_Hooked`. -/
def CreatePipe_log (a : CreatePipeArgs) (result : BOOL) (rd wr : HANDLE) : Event :=
  Event.log Level.info
    "\x7b\x7d -> result: \x7b\x7d, read: \x7b\x7d, write: \x7b\x7d, size: \x7b\x7d"
    [Arg.str "CreatePipe_Hooked", Arg.int result, Arg.ptr rd, Arg.ptr wr, Arg.dword a.nSize]

/-- The `LOG_INFO` statement of `CreateNamedPipeA_Hooked`. -/
def CreateNamedPipeA_log (name : List Nat) : Event :=
  Event.log Level.info "\x7b\x7d -> name: \x7b\x7d"
    [Arg.str "CreateNamedPipeA_Hooked", Arg.text name]

/-- The `LOG_INFO` statement of `CreateNamedPipeW_Hooked`. -/
def CreateNamedPipeW_log (name : List Nat) : Event :=
  Event.log Level.info "\x7b\x7d -> name: \x7b\x7d"
    [Arg.str "CreateNamedPipeW_Hooked", Arg.text name]

/-! ## The readiness gate -/

/-- The loop of `hook_delay`. `is_hooked function i` is the answer of the
`i`-th poll of `kb::hook::is_hooked(function)`; the first argument bounds the
number of polls. -/
def hook_delay (is_hooked : String → Nat → Bool) (function : String) :
    Nat → Nat → Option (List Event)
  | 0, _ => none
  | fuel + 1, i =>
    if is_hooked function i then
      some [Event.is_hooked function true]
    else
      match hook_delay is_hooked function fuel (i + 1) with
      | none => none
      | some rest =>
        some (Event.is_hooked function false :: hook_delay_log function :: Event.Sleep 10 :: rest)

/-- The macro `GET_ORIGINAL_FUNCTION(FUNC)`: `hook_delay(#FUNC)`, then the
initialisation of the static `_FUNC`, which runs on the first call only. -/
def GET_ORIGINAL_FUNCTION (is_hooked : String → Nat → Bool) (FUNC : Symbol)
    (fuel : Nat) (s : State) : Option (State × List Event) :=
  match hook_delay is_hooked FUNC.name fuel 0 with
  | none => none
  | some ev =>
    if s.resolved FUNC then
      some (s, ev)
    else
      some ({ s with resolved := Function.update s.resolved FUNC true },
        ev ++ [Event.get_hooked_fn FUNC.name])

/-! ## The hook bodies -/

/-- The body `ReadFile_Hooked`. -/
def ReadFile_Hooked (env : Env) (is_hooked : String → Nat → Bool) (fuel : Nat)
    (a : ReadFileArgs) (s : State) : Option (Result BOOL) :=
  match GET_ORIGINAL_FUNCTION is_hooked Symbol.ReadFile fuel s with
  | none => none
  | some (s0, ev0) =>
    let result := (env.ReadFile a s0.mem).1
    let s1 : State := { s0 with mem := (env.ReadFile a s0.mem).2 }
    let ev1 := ev0 ++ [Event.call (Call.ReadFile a)]
    if a.hFile ∈ s1.read_pipes then
      match s1.mem.read_bytes a.lpBuffer a.nNumberOfBytesToRead with
      | none => some ⟨Outcome.crashed, s1, ev1⟩
      | some string_buffer =>
        let ev2 := ev1 ++ [ReadFile_log a string_buffer]
        if result = FALSE then
          some ⟨Outcome.returned result, s1, ev2 ++ [ReadFile_warn a]⟩
        else
          some ⟨Outcome.returned result, s1, ev2⟩
    else
      if result = FALSE then
        some ⟨Outcome.returned result, s1, ev1 ++ [ReadFile_warn a]⟩
      else
        some ⟨Outcome.returned result, s1, ev1⟩

/-- The body `WriteFile_Hooked`. -/
def WriteFile_Hooked (env : Env) (is_hooked : String → Nat → Bool) (fuel : Nat)
    (a : WriteFileArgs) (s : State) : Option (Result BOOL) :=
  match GET_ORIGINAL_FUNCTION is_hooked Symbol.WriteFile fuel s with
  | none => none
  | some (s0, ev0) =>
    let result := (env.WriteFile a s0.mem).1
    let s1 : State := { s0 with mem := (env.WriteFile a s0.mem).2 }
    if a.hFile ∈ s0.write_pipes then
      match s0.mem.read_bytes a.lpBuffer a.nNumberOfBytesToWrite with
      | none => some ⟨Outcome.crashed, s0, ev0⟩
      | some string_buffer =>
        let ev1 := ev0 ++ [WriteFile_log a string_buffer, Event.call (Call.WriteFile a)]
        if result = FALSE then
          some ⟨Outcome.returned result, s1, ev1 ++ [WriteFile_warn]⟩
        else
          some ⟨Outcome.returned result, s1, ev1⟩
    else
      let ev1 := ev0 ++ [Event.call (Call.WriteFile a)]
      if result = FALSE then
        some ⟨Outcome.returned result, s1, ev1 ++ [WriteFile_warn]⟩
      else
        some ⟨Outcome.returned result, s1, ev1⟩

/-- The body `DuplicateHandle_Hooked`. The log statement reads `*lpTargetHandle`
before the test of `lpTargetHandle` against NULL. -/
def DuplicateHandle_Hooked (env : Env) (is_hooked : String → Nat → Bool) (fuel : Nat)
    (a : DuplicateHandleArgs) (s : State) : Option (Result BOOL) :=
  match GET_ORIGINAL_FUNCTION is_hooked Symbol.DuplicateHandle fuel s with
  | none => none
  | some (s0, ev0) =>
    let result := (env.DuplicateHandle a s0.mem).1
    let s1 : State := { s0 with mem := (env.DuplicateHandle a s0.mem).2 }
    let ev1 := ev0 ++ [Event.call (Call.DuplicateHandle a)]
    match s1.mem.load_handle a.lpTargetHandle with
    | none => some ⟨Outcome.crashed, s1, ev1⟩
    | some target =>
      let ev2 := ev1 ++ [DuplicateHandle_log a result target]
      if result ≠ 0 ∧ a.hSourceHandle ≠ 0 ∧ a.lpTargetHandle ≠ 0 then
        let ev3 := if a.hSourceHandle ∈ s1.read_pipes then
          ev2 ++ [DuplicateHandle_read_log] else ev2
        let s2 : State := if a.hSourceHandle ∈ s1.read_pipes then
          { s1 with read_pipes := insert target s1.read_pipes } else s1
        let ev4 := if a.hSourceHandle ∈ s2.write_pipes then
          ev3 ++ [DuplicateHandle_write_log] else ev3
        let s3 : State := if a.hSourceHandle ∈ s2.write_pipes then
          { s2 with write_pipes := insert target s2.write_pipes } else s2
        some ⟨Outcome.returned result, s3, ev4⟩
      else
        some ⟨Outcome.returned result, s1, ev2⟩

/-- The body `CreatePipe_Hooked`. The log statement reads `*hReadPipe` and
`*hWritePipe` before the test of both pointers against NULL. -/
def CreatePipe_Hooked (env : Env) (is_hooked : String → Nat → Bool) (fuel : Nat)
    (a : CreatePipeArgs) (s : State) : Option (Result BOOL) :=
  match GET_ORIGINAL_FUNCTION is_hooked Symbol.CreatePipe fuel s with
  | none => none
  | some (s0, ev0) =>
    let result := (env.CreatePipe a s0.mem).1
    let s1 : State := { s0 with mem := (env.CreatePipe a s0.mem).2 }
    let ev1 := ev0 ++ [Event.call (Call.CreatePipe a)]
    match s1.mem.load_handle a.hReadPipe, s1.mem.load_handle a.hWritePipe with
    | some rd, some wr =>
      let ev2 := ev1 ++ [CreatePipe_log a result rd wr]
      if result ≠ 0 ∧ a.hReadPipe ≠ 0 ∧ a.hWritePipe ≠ 0 then
        some ⟨Outcome.returned result,
          { s1 with read_pipes := insert rd s1.read_pipes,
                    write_pipes := insert wr s1.write_pipes }, ev2⟩
      else
        some ⟨Outcome.returned result, s1, ev2⟩
    | _, _ => some ⟨Outcome.crashed, s1, ev1⟩

/-- The body `CreateNamedPipeA_Hooked`: the name is logged before the forwarded call. -/
def CreateNamedPipeA_Hooked (env : Env) (is_hooked : String → Nat → Bool) (fuel : Nat)
    (a : CreateNamedPipeArgs) (s : State) : Option (Result HANDLE) :=
  match GET_ORIGINAL_FUNCTION is_hooked Symbol.CreateNamedPipeA fuel s with
  | none => none
  | some (s0, ev0) =>
    some ⟨Outcome.returned (env.CreateNamedPipeA a s0.mem).1,
      { s0 with mem := (env.CreateNamedPipeA a s0.mem).2 },
      ev0 ++ [CreateNamedPipeA_log (s0.mem.cstr a.lpName),
        Event.call (Call.CreateNamedPipeA a)]⟩

/-- The body `CreateNamedPipeW_Hooked`: the converted name is logged before the
forwarded call. -/
def CreateNamedPipeW_Hooked (env : Env) (is_hooked : String → Nat → Bool) (fuel : Nat)
    (a : CreateNamedPipeArgs) (s : State) : Option (Result HANDLE) :=
  match GET_ORIGINAL_FUNCTION is_hooked Symbol.CreateNamedPipeW fuel s with
  | none => none
  | some (s0, ev0) =>
    some ⟨Outcome.returned (env.CreateNamedPipeW a s0.mem).1,
      { s0 with mem := (env.CreateNamedPipeW a s0.mem).2 },
      ev0 ++ [CreateNamedPipeW_log (env.to_str (s0.mem.wstr a.lpName)),
        Event.call (Call.CreateNamedPipeW a)]⟩

/-! ## Vocabulary of the statements -/

/-- The hook record reports `function` as not installed on the polls `0 .. k-1`
and as installed on poll `k` (the `k+1`-th poll). -/
def GateOpens (is_hooked : String → Nat → Bool) (function : String) (k : Nat) : Prop :=
  (∀ i, i < k → is_hooked function i = false) ∧ is_hooked function k = true

instance (is_hooked : String → Nat → Bool) (function : String) (k : Nat) :
    Decidable (GateOpens is_hooked function k) := by
  unfold GateOpens
  infer_instance

/-- The events of one iteration of the loop of `hook_delay`. -/
def wait_trace (function : String) : List Event :=
  [Event.is_hooked function false, hook_delay_log function, Event.Sleep 10]

/-- The events of `hook_delay` when the gate opens at poll `k`: `k` iterations of
the loop, then the poll that reports installed. -/
def gate_trace (function : String) : Nat → List Event
  | 0 => [Event.is_hooked function true]
  | k + 1 => wait_trace function ++ gate_trace function k

/-- The events of `GET_ORIGINAL_FUNCTION(FUNC)` when the gate opens at poll `k`. -/
def prologue (s : State) (FUNC : Symbol) (k : Nat) : List Event :=
  gate_trace FUNC.name k ++ (if s.resolved FUNC then [] else [Event.get_hooked_fn FUNC.name])

/-- The state after `GET_ORIGINAL_FUNCTION(FUNC)`: the static `_FUNC` is initialised. -/
def resolve (s : State) (FUNC : Symbol) : State :=
  if s.resolved FUNC then s else { s with resolved := Function.update s.resolved FUNC true }

/-- One step of the process: the host code writes memory, or one of the six
bodies runs to its end (it returns or stops at an access violation). -/
inductive Step (env : Env) : State → State → Prop
  | host (s : State) (m : Mem) : Step env s { s with mem := m }
  | ReadFile (is_hooked : String → Nat → Bool) (fuel : Nat) (a : ReadFileArgs)
      (s : State) (r : Result BOOL) :
      ReadFile_Hooked env is_hooked fuel a s = some r → Step env s r.st
  | WriteFile (is_hooked : String → Nat → Bool) (fuel : Nat) (a : WriteFileArgs)
      (s : State) (r : Result BOOL) :
      WriteFile_Hooked env is_hooked fuel a s = some r → Step env s r.st
  | DuplicateHandle (is_hooked : String → Nat → Bool) (fuel : Nat) (a : DuplicateHandleArgs)
      (s : State) (r : Result BOOL) :
      DuplicateHandle_Hooked env is_hooked fuel a s = some r → Step env s r.st
  | CreatePipe (is_hooked : String → Nat → Bool) (fuel : Nat) (a : CreatePipeArgs)
      (s : State) (r : Result BOOL) :
      CreatePipe_Hooked env is_hooked fuel a s = some r → Step env s r.st
  | CreateNamedPipeA (is_hooked : String → Nat → Bool) (fuel : Nat) (a : CreateNamedPipeArgs)
      (s : State) (r : Result HANDLE) :
      CreateNamedPipeA_Hooked env is_hooked fuel a s = some r → Step env s r.st
  | CreateNamedPipeW (is_hooked : String → Nat → Bool) (fuel : Nat) (a : CreateNamedPipeArgs)
      (s : State) (r : Result HANDLE) :
      CreateNamedPipeW_Hooked env is_hooked fuel a s = some r → Step env s r.st

/-- The states reachable from `s` by any number of steps. -/
def Reachable (env : Env) (s s' : State) : Prop :=
  Relation.ReflTransGen (Step env) s s'

/-! ## A simulated kernel, to run the bodies on concrete inputs -/

/-- Writes a HANDLE cell. -/
def Mem.store_handle (m : Mem) (p : Nat) (h : HANDLE) : Mem :=
  { m with handle := fun q => if q = p then some h else m.handle q }

/-- Writes a DWORD cell. -/
def Mem.store_dword (m : Mem) (p : Nat) (v : Nat) : Mem :=
  { m with dword := fun q => if q = p then some v else m.dword q }

/-- Writes consecutive bytes from address `p` on. -/
def Mem.store_bytes (m : Mem) (p : Nat) : List Nat → Mem
  | [] => m
  | b :: bs =>
    Mem.store_bytes { m with byte := fun q => if q = p then some b else m.byte q } (p + 1) bs

/-- The bytes of the text `hello`. -/
def hello : List Nat := [104, 101, 108, 108, 111]

/-- The bytes of the pipe name `\\.\pipe\test`. -/
def pipe_test : List Nat := [92, 92, 46, 92, 112, 105, 112, 101, 92, 116, 101, 115, 116]

/-- A memory in which every address but NULL is mapped, the text `hello` lies at
address 512, and the pipe name lies at address 768 (as a narrow and as a wide string). -/
def sim_mem : Mem :=
  Mem.store_bytes
    { byte := fun _ => some 0
      handle := fun _ => some 0
      dword := fun _ => some 0
      cstr := fun p => if p = 768 then pipe_test else []
      wstr := fun p => if p = 768 then pipe_test else [] }
    512 hello

/-- A kernel with one anonymous pipe: `CreatePipe` returns the read handle 100
and the write handle 101; the bytes in flight are kept from address 4096 on and
their number in the DWORD cell 4092. Handle duplication yields the source
handle plus 1000; named pipe creation yields the handles 102 and 103. -/
def sim : Env where
  ReadFile a m :=
    if a.hFile = 100 then
      match m.dword 4092 with
      | some len =>
        match m.read_bytes 4096 (min len a.nNumberOfBytesToRead) with
        | some bs =>
          (1, ((m.store_bytes a.lpBuffer bs).store_dword 4092 0).store_dword
            a.lpNumberOfBytesRead bs.length)
        | none => (0, m)
      | none => (0, m)
    else (0, m)
  WriteFile a m :=
    if a.hFile = 101 then
      match m.read_bytes a.lpBuffer a.nNumberOfBytesToWrite with
      | some bs =>
        (1, ((m.store_bytes 4096 bs).store_dword 4092 bs.length).store_dword
          a.lpNumberOfBytesWritten bs.length)
      | none => (0, m)
    else (0, m)
  DuplicateHandle a m := (1, m.store_handle a.lpTargetHandle (a.hSourceHandle + 1000))
  CreatePipe a m := (1, (m.store_handle a.hReadPipe 100).store_handle a.hWritePipe 101)
  CreateNamedPipeA _ m := (102, m)
  CreateNamedPipeW _ m := (103, m)
  to_str := id

/-- A kernel in which every primitive fails and leaves the memory as it is
(`INVALID_HANDLE_VALUE` is the all-ones pointer). -/
def sim_fail : Env where
  ReadFile _ m := (0, m)
  WriteFile _ m := (0, m)
  DuplicateHandle _ m := (0, m)
  CreatePipe _ m := (0, m)
  CreateNamedPipeA _ m := (2 ^ 64 - 1, m)
  CreateNamedPipeW _ m := (2 ^ 64 - 1, m)
  to_str := id

/-- A hook record that reports every symbol as installed from poll `k` on. -/
def installed_from (k : Nat) : String → Nat → Bool :=
  fun _ i => decide (k ≤ i)

/-- A hook record that never reports any symbol as installed. -/
def never_installed : String → Nat → Bool :=
  fun _ _ => false

/-- The state at process attach: both sets empty, no static initialised. -/
def attach : State :=
  { read_pipes := ∅, write_pipes := ∅, resolved := fun _ => false, mem := sim_mem }

/-- The state of a body's result, or the given state when the gate stayed closed. -/
def after {ρ : Type} (s : State) (r : Option (Result ρ)) : State :=
  match r with
  | some x => x.st
  | none => s

/-- The `CreatePipe` call of the scenarios: the handles are received at 16 and 24. -/
def create_args : CreatePipeArgs :=
  { hReadPipe := 16, hWritePipe := 24, lpPipeAttributes := 0, nSize := 0 }

/-- The `WriteFile` call of the scenarios: 5 bytes at address 512 to handle 101. -/
def write_args : WriteFileArgs :=
  { hFile := 101, lpBuffer := 512, nNumberOfBytesToWrite := 5,
    lpNumberOfBytesWritten := 32, lpOverlapped := 0 }

/-- The `ReadFile` call of the scenarios: up to 5 bytes from handle 100 to address 640. -/
def read_args : ReadFileArgs :=
  { hFile := 100, lpBuffer := 640, nNumberOfBytesToRead := 5,
    lpNumberOfBytesRead := 40, lpOverlapped := 0 }

/-- The state after the pipe pair has been created from `attach`. -/
def piped : State :=
  after attach (CreatePipe_Hooked sim (installed_from 0) 1 create_args attach)

/-- The state after `hello` has been written to the write end. -/
def written : State :=
  after piped (WriteFile_Hooked sim (installed_from 0) 1 write_args piped)

/-- The `DuplicateHandle` call of the scenarios: the read handle 100 is
duplicated, the target handle is received at address 48. -/
def dup_args : DuplicateHandleArgs :=
  { hSourceProcessHandle := 1, hSourceHandle := 100, hTargetProcessHandle := 1,
    lpTargetHandle := 48, dwDesiredAccess := 0, bInheritHandle := 0, dwOptions := 2 }

/-- A `DuplicateHandle` call that passes NULL for `lpTargetHandle` (the caller
does not want the duplicate's value back). -/
def dup_no_target_args : DuplicateHandleArgs :=
  { dup_args with lpTargetHandle := 0 }

/-- The state after the read handle 100 has been duplicated from `piped`. -/
def duplicated : State :=
  after piped (DuplicateHandle_Hooked sim (installed_from 0) 1 dup_args piped)

/-- The state after `hello` has then been written to the write end. -/
def duplicated_written : State :=
  after duplicated (WriteFile_Hooked sim (installed_from 0) 1 write_args duplicated)

/-- A `ReadFile` call on handle 100 whose buffer is the region at 512, which
already holds `hello`. -/
def stale_read_args : ReadFileArgs :=
  { read_args with lpBuffer := 512 }

/-- The named pipe call of the scenarios: the name lies at address 768. -/
def named_args : CreateNamedPipeArgs :=
  { lpName := 768, dwOpenMode := 3, dwPipeMode := 0, nMaxInstances := 1,
    nOutBufferSize := 512, nInBufferSize := 512, nDefaultTimeOut := 0,
    lpSecurityAttributes := 0 }

/-- NULL is in neither set. The kernel never hands out NULL as a handle, so this
holds of the registry throughout (see `NullFree_of_Reachable`). -/
def NullFree (s : State) : Prop :=
  (0 : HANDLE) ∉ s.read_pipes ∧ (0 : HANDLE) ∉ s.write_pipes

/-- The original `CreatePipe` and `DuplicateHandle` never report success and
leave NULL behind an output pointer. -/
def NoNullHandles (env : Env) : Prop :=
  (∀ a m, (env.CreatePipe a m).1 ≠ 0 →
    (env.CreatePipe a m).2.load_handle a.hReadPipe ≠ some 0 ∧
    (env.CreatePipe a m).2.load_handle a.hWritePipe ≠ some 0) ∧
  (∀ a m, (env.DuplicateHandle a m).1 ≠ 0 →
    (env.DuplicateHandle a m).2.load_handle a.lpTargetHandle ≠ some 0)

/-- Whether a log record has the given argument. -/
def Record.mentions (l : Record) (x : Arg) : Bool :=
  decide (x ∈ l.args)

/-- The record that `hook_delay` logs in each iteration of its loop. -/
def sleeping_record (function : String) : Record :=
  ⟨Level.debug, "\x7b\x7d -> Sleeping 10 ms", [Arg.str function]⟩

/-! ## Lemmas on traces -/

theorem logs_append (xs ys : List Event) : logs (xs ++ ys) = logs xs ++ logs ys := by
  induction xs with
  | nil => rfl
  | cons x xs ih => cases x <;> simp [logs, ih]

theorem calls_append (xs ys : List Event) : calls (xs ++ ys) = calls xs ++ calls ys := by
  induction xs with
  | nil => rfl
  | cons x xs ih => cases x <;> simp [calls, ih]

theorem sleeps_append (xs ys : List Event) : sleeps (xs ++ ys) = sleeps xs ++ sleeps ys := by
  induction xs with
  | nil => rfl
  | cons x xs ih => cases x <;> simp [sleeps, ih]

theorem logs_gate_trace (function : String) (k : Nat) :
    logs (gate_trace function k) = List.replicate k (sleeping_record function) := by
  induction k with
  | zero => rfl
  | succ k ih =>
    simp [gate_trace, wait_trace, hook_delay_log, logs, ih, List.replicate_succ, sleeping_record]

theorem calls_gate_trace (function : String) (k : Nat) : calls (gate_trace function k) = [] := by
  induction k with
  | zero => rfl
  | succ k ih => simp [gate_trace, wait_trace, hook_delay_log, calls, ih]

theorem sleeps_gate_trace (function : String) (k : Nat) :
    sleeps (gate_trace function k) = List.replicate k 10 := by
  induction k with
  | zero => rfl
  | succ k ih =>
    simp [gate_trace, wait_trace, hook_delay_log, sleeps, ih, List.replicate_succ]

theorem logs_prologue (s : State) (FUNC : Symbol) (k : Nat) :
    logs (prologue s FUNC k) = List.replicate k (sleeping_record FUNC.name) := by
  unfold prologue
  rw [logs_append, logs_gate_trace]
  split <;> simp [logs]

theorem calls_prologue (s : State) (FUNC : Symbol) (k : Nat) :
    calls (prologue s FUNC k) = [] := by
  unfold prologue
  rw [calls_append, calls_gate_trace]
  split <;> simp [calls]

theorem sleeps_prologue (s : State) (FUNC : Symbol) (k : Nat) :
    sleeps (prologue s FUNC k) = List.replicate k 10 := by
  unfold prologue
  rw [sleeps_append, sleeps_gate_trace]
  split <;> simp [sleeps]

theorem gate_trace_getLast (function : String) (k : Nat) :
    (gate_trace function k).getLast? = some (Event.is_hooked function true) := by
  induction k with
  | zero => rfl
  | succ k ih =>
    have hne : gate_trace function k ≠ [] := by
      intro h
      rw [h] at ih
      simp at ih
    rw [gate_trace, List.getLast?_append_of_ne_nil _ hne, ih]

theorem get_hooked_fn_not_mem_gate_trace (function g : String) (k : Nat) :
    Event.get_hooked_fn g ∉ gate_trace function k := by
  induction k with
  | zero => simp [gate_trace]
  | succ k ih => simp [gate_trace, wait_trace, hook_delay_log, ih]

/-! ## Lemmas on the readiness gate -/

theorem hook_delay_from (is_hooked : String → Nat → Bool) (function : String) :
    ∀ (k fuel j : Nat), (∀ i, i < k → is_hooked function (j + i) = false) →
      is_hooked function (j + k) = true → k < fuel →
      hook_delay is_hooked function fuel j = some (gate_trace function k) := by
  intro k
  induction k with
  | zero =>
    intro fuel j _ hk hf
    obtain ⟨f, rfl⟩ : ∃ f, fuel = f + 1 := ⟨fuel - 1, by omega⟩
    simp only [Nat.add_zero] at hk
    simp [hook_delay, hk, gate_trace]
  | succ k ih =>
    intro fuel j hlt hk hf
    obtain ⟨f, rfl⟩ : ∃ f, fuel = f + 1 := ⟨fuel - 1, by omega⟩
    have h0 : is_hooked function j = false := by simpa using hlt 0 (by omega)
    have hrec : hook_delay is_hooked function f (j + 1) = some (gate_trace function k) := by
      apply ih
      · intro i hi
        have := hlt (i + 1) (by omega)
        rwa [show j + 1 + i = j + (i + 1) by omega]
      · rwa [show j + 1 + k = j + (k + 1) by omega]
      · omega
    simp [hook_delay, h0, hrec, gate_trace, wait_trace]

theorem hook_delay_eq (is_hooked : String → Nat → Bool) (function : String) (k fuel : Nat)
    (hgate : GateOpens is_hooked function k) (hfuel : k < fuel) :
    hook_delay is_hooked function fuel 0 = some (gate_trace function k) := by
  apply hook_delay_from
  · intro i hi
    simpa using hgate.1 i hi
  · simpa using hgate.2
  · exact hfuel

theorem GET_ORIGINAL_FUNCTION_eq (is_hooked : String → Nat → Bool) (FUNC : Symbol)
    (k fuel : Nat) (s : State)
    (hgate : GateOpens is_hooked FUNC.name k) (hfuel : k < fuel) :
    GET_ORIGINAL_FUNCTION is_hooked FUNC fuel s = some (resolve s FUNC, prologue s FUNC k) := by
  unfold GET_ORIGINAL_FUNCTION
  rw [hook_delay_eq is_hooked FUNC.name k fuel hgate hfuel]
  unfold resolve prologue
  by_cases h : s.resolved FUNC = true <;> simp [h]

theorem hook_delay_closed (function : String) :
    ∀ (fuel j : Nat), hook_delay never_installed function fuel j = none := by
  intro fuel
  induction fuel with
  | zero => intro j; rfl
  | succ f ih => intro j; simp [hook_delay, never_installed, ih]

@[simp] theorem resolve_read_pipes (s : State) (FUNC : Symbol) :
    (resolve s FUNC).read_pipes = s.read_pipes := by
  unfold resolve; split <;> rfl

@[simp] theorem resolve_write_pipes (s : State) (FUNC : Symbol) :
    (resolve s FUNC).write_pipes = s.write_pipes := by
  unfold resolve; split <;> rfl

@[simp] theorem resolve_mem (s : State) (FUNC : Symbol) :
    (resolve s FUNC).mem = s.mem := by
  unfold resolve; split <;> rfl

theorem load_handle_ne_zero (m : Mem) (p : Nat) (h : HANDLE)
    (hp : m.load_handle p = some h) : p ≠ 0 := by
  intro h0
  simp [Mem.load_handle, h0] at hp

/-! ## Pipe creation -/

/-- C1: when the gate of `CreatePipe` opens and the original `CreatePipe` leaves the
read handle `R` and the write handle `W` behind the two (hence non-null) output
pointers, `CreatePipe_Hooked` returns the original's value; if that value reports
success the read set becomes the old read set plus `R` and the write set the old
write set plus `W`, so `R` and `W` are classified; if it reports failure both sets
are unchanged. -/
theorem CreatePipe_Hooked_classifies (env : Env) (is_hooked : String → Nat → Bool)
    (k fuel : Nat) (a : CreatePipeArgs) (s : State) (R W : HANDLE)
    (hgate : GateOpens is_hooked "CreatePipe" k) (hfuel : k < fuel)
    (hR : (env.CreatePipe a s.mem).2.load_handle a.hReadPipe = some R)
    (hW : (env.CreatePipe a s.mem).2.load_handle a.hWritePipe = some W) :
    ∃ r, CreatePipe_Hooked env is_hooked fuel a s = some r ∧
      r.outcome = Outcome.returned (env.CreatePipe a s.mem).1 ∧
      ((env.CreatePipe a s.mem).1 ≠ 0 →
        r.st.read_pipes = insert R s.read_pipes ∧
        r.st.write_pipes = insert W s.write_pipes ∧
        R ∈ r.st.read_pipes ∧ W ∈ r.st.write_pipes) ∧
      ((env.CreatePipe a s.mem).1 = 0 →
        r.st.read_pipes = s.read_pipes ∧ r.st.write_pipes = s.write_pipes) := by
  have hr0 := load_handle_ne_zero _ _ _ hR
  have hw0 := load_handle_ne_zero _ _ _ hW
  unfold CreatePipe_Hooked
  rw [GET_ORIGINAL_FUNCTION_eq is_hooked Symbol.CreatePipe k fuel s hgate hfuel]
  simp only [resolve_mem, hR, hW]
  by_cases hres : (env.CreatePipe a s.mem).1 = 0
  · simp [hres]
  · simp [hres, hr0, hw0]

/-- Witness of C1: the simulated kernel creates the pipe pair 100 / 101 from the
state at process attach, after two polls that report the hook as not installed. -/
theorem CreatePipe_Hooked_classifies_witness :
    (GateOpens (installed_from 2) "CreatePipe" 2 ∧ 2 < 3 ∧
      (sim.CreatePipe create_args attach.mem).2.load_handle create_args.hReadPipe = some 100 ∧
      (sim.CreatePipe create_args attach.mem).2.load_handle create_args.hWritePipe = some 101) ∧
    ∃ r, CreatePipe_Hooked sim (installed_from 2) 3 create_args attach = some r ∧
      r.outcome = Outcome.returned (sim.CreatePipe create_args attach.mem).1 ∧
      ((sim.CreatePipe create_args attach.mem).1 ≠ 0 →
        r.st.read_pipes = insert 100 attach.read_pipes ∧
        r.st.write_pipes = insert 101 attach.write_pipes ∧
        100 ∈ r.st.read_pipes ∧ 101 ∈ r.st.write_pipes) ∧
      ((sim.CreatePipe create_args attach.mem).1 = 0 →
        r.st.read_pipes = attach.read_pipes ∧ r.st.write_pipes = attach.write_pipes) :=
  ⟨⟨by decide, by decide, rfl, rfl⟩,
    CreatePipe_Hooked_classifies sim (installed_from 2) 2 3 create_args attach 100 101
      (by decide) (by decide) rfl rfl⟩

/-! ## Handle duplication -/

/-- C3 at the failing input: `DuplicateHandle_Hooked` is called with a NULL
`lpTargetHandle` on the classified handle 100 and the original reports success.
The body forwards the call once, then stops at the read of `*lpTargetHandle` in
its log statement: it emits no record and never returns the original's value. -/
theorem DuplicateHandle_Hooked_null_target :
    dup_no_target_args.lpTargetHandle = 0 ∧
    (sim.DuplicateHandle dup_no_target_args piped.mem).1 = 1 ∧
    ∃ r, DuplicateHandle_Hooked sim (installed_from 0) 1 dup_no_target_args piped = some r ∧
      r.outcome = Outcome.crashed ∧
      calls r.events = [Call.DuplicateHandle dup_no_target_args] ∧
      logs r.events = [] ∧
      r.st.read_pipes = piped.read_pipes := by
  refine ⟨rfl, by decide, _, rfl, rfl, rfl, rfl, rfl⟩

/-- Past the gate, `GET_ORIGINAL_FUNCTION` changes nothing but the flag of the static. -/
theorem GET_ORIGINAL_FUNCTION_frame (is_hooked : String → Nat → Bool) (FUNC : Symbol)
    (fuel : Nat) (s s0 : State) (ev : List Event)
    (h : GET_ORIGINAL_FUNCTION is_hooked FUNC fuel s = some (s0, ev)) :
    s0 = resolve s FUNC := by
  unfold GET_ORIGINAL_FUNCTION at h
  unfold resolve
  cases hd : hook_delay is_hooked FUNC.name fuel 0 with
  | none => simp [hd] at h
  | some t =>
    by_cases hr : s.resolved FUNC = true
    · simp [hd, hr] at h
      rw [if_pos hr]
      exact h.1.symm
    · simp [hd, hr] at h
      rw [if_neg hr]
      exact h.1.symm

/-- `ReadFile_Hooked` forwards once and returns the original's value, provided the
buffer of a classified handle is readable; the memory it leaves (the buffer and
the byte count behind `lpNumberOfBytesRead`) is the memory the original left. -/
theorem ReadFile_Hooked_forwards (env : Env) (is_hooked : String → Nat → Bool)
    (k fuel : Nat) (a : ReadFileArgs) (s : State)
    (hgate : GateOpens is_hooked "ReadFile" k) (hfuel : k < fuel)
    (hbuf : a.hFile ∈ s.read_pipes →
      ((env.ReadFile a s.mem).2.read_bytes a.lpBuffer a.nNumberOfBytesToRead).isSome) :
    ∃ r, ReadFile_Hooked env is_hooked fuel a s = some r ∧
      r.outcome = Outcome.returned (env.ReadFile a s.mem).1 ∧
      calls r.events = [Call.ReadFile a] ∧
      r.st.mem = (env.ReadFile a s.mem).2 ∧
      r.st.read_pipes = s.read_pipes ∧ r.st.write_pipes = s.write_pipes ∧
      ∃ post, r.events = prologue s Symbol.ReadFile k ++ Event.call (Call.ReadFile a) :: post := by
  unfold ReadFile_Hooked
  rw [GET_ORIGINAL_FUNCTION_eq is_hooked Symbol.ReadFile k fuel s hgate hfuel]
  simp only [resolve_mem, resolve_read_pipes]
  by_cases hc : a.hFile ∈ s.read_pipes
  · obtain ⟨b, hb⟩ := Option.isSome_iff_exists.mp (hbuf hc)
    by_cases hres : (env.ReadFile a s.mem).1 = 0 <;>
      simp [hc, hb, hres, calls_append, calls_prologue, calls, ReadFile_log, ReadFile_warn]
  · by_cases hres : (env.ReadFile a s.mem).1 = 0 <;>
      simp [hc, hres, calls_append, calls_prologue, calls, ReadFile_warn]

/-- `WriteFile_Hooked` forwards once and returns the original's value, provided the
buffer of a classified handle is readable. -/
theorem WriteFile_Hooked_forwards (env : Env) (is_hooked : String → Nat → Bool)
    (k fuel : Nat) (a : WriteFileArgs) (s : State)
    (hgate : GateOpens is_hooked "WriteFile" k) (hfuel : k < fuel)
    (hbuf : a.hFile ∈ s.write_pipes →
      (s.mem.read_bytes a.lpBuffer a.nNumberOfBytesToWrite).isSome) :
    ∃ r, WriteFile_Hooked env is_hooked fuel a s = some r ∧
      r.outcome = Outcome.returned (env.WriteFile a s.mem).1 ∧
      calls r.events = [Call.WriteFile a] ∧
      r.st.mem = (env.WriteFile a s.mem).2 ∧
      r.st.read_pipes = s.read_pipes ∧ r.st.write_pipes = s.write_pipes := by
  unfold WriteFile_Hooked
  rw [GET_ORIGINAL_FUNCTION_eq is_hooked Symbol.WriteFile k fuel s hgate hfuel]
  simp only [resolve_mem, resolve_write_pipes]
  by_cases hc : a.hFile ∈ s.write_pipes
  · obtain ⟨b, hb⟩ := Option.isSome_iff_exists.mp (hbuf hc)
    by_cases hres : (env.WriteFile a s.mem).1 = 0 <;>
      simp [hc, hb, hres, calls_append, calls_prologue, calls, WriteFile_log, WriteFile_warn]
  · by_cases hres : (env.WriteFile a s.mem).1 = 0 <;>
      simp [hc, hres, calls_append, calls_prologue, calls, WriteFile_warn]

/-- `DuplicateHandle_Hooked` forwards once and returns the original's value,
provided `lpTargetHandle` is readable after the call. -/
theorem DuplicateHandle_Hooked_forwards (env : Env) (is_hooked : String → Nat → Bool)
    (k fuel : Nat) (a : DuplicateHandleArgs) (s : State) (T : HANDLE)
    (hgate : GateOpens is_hooked "DuplicateHandle" k) (hfuel : k < fuel)
    (hT : (env.DuplicateHandle a s.mem).2.load_handle a.lpTargetHandle = some T) :
    ∃ r, DuplicateHandle_Hooked env is_hooked fuel a s = some r ∧
      r.outcome = Outcome.returned (env.DuplicateHandle a s.mem).1 ∧
      calls r.events = [Call.DuplicateHandle a] ∧
      r.st.mem = (env.DuplicateHandle a s.mem).2 := by
  unfold DuplicateHandle_Hooked
  rw [GET_ORIGINAL_FUNCTION_eq is_hooked Symbol.DuplicateHandle k fuel s hgate hfuel]
  simp only [resolve_mem, hT]
  by_cases hg : (env.DuplicateHandle a s.mem).1 ≠ 0 ∧ a.hSourceHandle ≠ 0 ∧ a.lpTargetHandle ≠ 0
  · rw [if_pos hg]
    by_cases hr : a.hSourceHandle ∈ s.read_pipes <;>
      by_cases hw : a.hSourceHandle ∈ s.write_pipes <;>
      simp [hr, hw, calls_append, calls_prologue, calls, DuplicateHandle_log,
        DuplicateHandle_read_log, DuplicateHandle_write_log]
  · rw [if_neg hg]
    simp [calls_append, calls_prologue, calls, DuplicateHandle_log]

/-- `CreatePipe_Hooked` forwards once and returns the original's value, provided
both output pointers are readable after the call. -/
theorem CreatePipe_Hooked_forwards (env : Env) (is_hooked : String → Nat → Bool)
    (k fuel : Nat) (a : CreatePipeArgs) (s : State) (R W : HANDLE)
    (hgate : GateOpens is_hooked "CreatePipe" k) (hfuel : k < fuel)
    (hR : (env.CreatePipe a s.mem).2.load_handle a.hReadPipe = some R)
    (hW : (env.CreatePipe a s.mem).2.load_handle a.hWritePipe = some W) :
    ∃ r, CreatePipe_Hooked env is_hooked fuel a s = some r ∧
      r.outcome = Outcome.returned (env.CreatePipe a s.mem).1 ∧
      calls r.events = [Call.CreatePipe a] ∧
      r.st.mem = (env.CreatePipe a s.mem).2 := by
  unfold CreatePipe_Hooked
  rw [GET_ORIGINAL_FUNCTION_eq is_hooked Symbol.CreatePipe k fuel s hgate hfuel]
  simp only [resolve_mem, hR, hW]
  by_cases hg : (env.CreatePipe a s.mem).1 ≠ 0 ∧ a.hReadPipe ≠ 0 ∧ a.hWritePipe ≠ 0
  · rw [if_pos hg]
    simp [calls_append, calls_prologue, calls, CreatePipe_log]
  · rw [if_neg hg]
    simp [calls_append, calls_prologue, calls, CreatePipe_log]

/-- Both named pipe bodies forward once and return the original's value. -/
theorem CreateNamedPipe_Hooked_forwards (env : Env) (is_hooked : String → Nat → Bool)
    (ka kw fuel : Nat) (a : CreateNamedPipeArgs) (s : State)
    (hgateA : GateOpens is_hooked "CreateNamedPipeA" ka) (hfuelA : ka < fuel)
    (hgateW : GateOpens is_hooked "CreateNamedPipeW" kw) (hfuelW : kw < fuel) :
    (∃ r, CreateNamedPipeA_Hooked env is_hooked fuel a s = some r ∧
      r.outcome = Outcome.returned (env.CreateNamedPipeA a s.mem).1 ∧
      calls r.events = [Call.CreateNamedPipeA a] ∧
      r.st.mem = (env.CreateNamedPipeA a s.mem).2) ∧
    (∃ r, CreateNamedPipeW_Hooked env is_hooked fuel a s = some r ∧
      r.outcome = Outcome.returned (env.CreateNamedPipeW a s.mem).1 ∧
      calls r.events = [Call.CreateNamedPipeW a] ∧
      r.st.mem = (env.CreateNamedPipeW a s.mem).2) := by
  constructor
  · unfold CreateNamedPipeA_Hooked
    rw [GET_ORIGINAL_FUNCTION_eq is_hooked Symbol.CreateNamedPipeA ka fuel s hgateA hfuelA]
    simp [calls_append, calls_prologue, calls, CreateNamedPipeA_log]
  · unfold CreateNamedPipeW_Hooked
    rw [GET_ORIGINAL_FUNCTION_eq is_hooked Symbol.CreateNamedPipeW kw fuel s hgateW hfuelW]
    simp [calls_append, calls_prologue, calls, CreateNamedPipeW_log]

/-! ## Logging on unclassified handles -/

/-- Counterexample to C4 as stated: handle 100 is not in the read set, the
original `ReadFile` fails, and `ReadFile_Hooked` emits a warning record. -/
theorem ReadFile_Hooked_unclassified_warns :
    read_args.hFile ∉ attach.read_pipes ∧
    ∃ r, ReadFile_Hooked sim_fail (installed_from 0) 1 read_args attach = some r ∧
      r.outcome = Outcome.returned 0 ∧
      logs r.events = [⟨Level.warn, "Failed to read from file \x7b\x7d", [Arg.ptr 100]⟩] := by
  refine ⟨by decide, _, rfl, rfl, rfl⟩

/-- C4 (amended): on a handle outside the read set `ReadFile_Hooked`, and on a
handle outside the write set `WriteFile_Hooked`, never logs buffer content: its
records are the `k` diagnostics of the gate (one per poll that found the hook not
installed) followed, exactly when the forwarded call fails, by one warning
record; with the hook already installed and a successful call it logs nothing. -/
theorem unclassified_logs (env : Env) (is_hooked : String → Nat → Bool)
    (kr kw fuel : Nat) (ar : ReadFileArgs) (aw : WriteFileArgs) (s : State)
    (hgateR : GateOpens is_hooked "ReadFile" kr) (hfuelR : kr < fuel)
    (hgateW : GateOpens is_hooked "WriteFile" kw) (hfuelW : kw < fuel)
    (hr : ar.hFile ∉ s.read_pipes) (hw : aw.hFile ∉ s.write_pipes) :
    (∃ r, ReadFile_Hooked env is_hooked fuel ar s = some r ∧
      logs r.events = List.replicate kr (sleeping_record "ReadFile") ++
        (if (env.ReadFile ar s.mem).1 = FALSE then
          [⟨Level.warn, "Failed to read from file \x7b\x7d", [Arg.ptr ar.hFile]⟩] else []) ∧
      (∀ l ∈ logs r.events, ∀ b, l.mentions (Arg.text b) = false)) ∧
    (∃ r, WriteFile_Hooked env is_hooked fuel aw s = some r ∧
      logs r.events = List.replicate kw (sleeping_record "WriteFile") ++
        (if (env.WriteFile aw s.mem).1 = FALSE then
          [⟨Level.warn, "Failed to write to file", []⟩] else []) ∧
      (∀ l ∈ logs r.events, ∀ b, l.mentions (Arg.text b) = false)) := by
  constructor
  · unfold ReadFile_Hooked
    rw [GET_ORIGINAL_FUNCTION_eq is_hooked Symbol.ReadFile kr fuel s hgateR hfuelR]
    simp only [resolve_mem, resolve_read_pipes, if_neg hr]
    by_cases hres : (env.ReadFile ar s.mem).1 = 0
    · simp only [hres, if_true]
      refine ⟨_, rfl, ?_, ?_⟩
      · simp [logs_append, logs_prologue, logs, ReadFile_warn, Symbol.name]
      · intro l hl b
        simp only [logs_append, logs_prologue, logs, ReadFile_warn, List.mem_append,
          List.mem_replicate, List.mem_singleton, List.append_nil] at hl
        rcases hl with ⟨_, rfl⟩ | rfl <;> simp [Record.mentions, sleeping_record]
    · simp only [hres, if_false]
      refine ⟨_, rfl, ?_, ?_⟩
      · simp [logs_append, logs_prologue, logs, Symbol.name]
      · intro l hl b
        simp only [logs_append, logs_prologue, logs, List.mem_append,
          List.mem_replicate, List.append_nil, List.not_mem_nil, or_false] at hl
        rcases hl with ⟨_, rfl⟩
        simp [Record.mentions, sleeping_record]
  · unfold WriteFile_Hooked
    rw [GET_ORIGINAL_FUNCTION_eq is_hooked Symbol.WriteFile kw fuel s hgateW hfuelW]
    simp only [resolve_mem, resolve_write_pipes, if_neg hw]
    by_cases hres : (env.WriteFile aw s.mem).1 = 0
    · simp only [hres, if_true]
      refine ⟨_, rfl, ?_, ?_⟩
      · simp [logs_append, logs_prologue, logs, WriteFile_warn, Symbol.name]
      · intro l hl b
        simp only [logs_append, logs_prologue, logs, WriteFile_warn, List.mem_append,
          List.mem_replicate, List.mem_singleton, List.append_nil] at hl
        rcases hl with ⟨_, rfl⟩ | rfl <;> simp [Record.mentions, sleeping_record]
    · simp only [hres, if_false]
      refine ⟨_, rfl, ?_, ?_⟩
      · simp [logs_append, logs_prologue, logs, Symbol.name]
      · intro l hl b
        simp only [logs_append, logs_prologue, logs, List.mem_append,
          List.mem_replicate, List.append_nil, List.not_mem_nil, or_false] at hl
        rcases hl with ⟨_, rfl⟩
        simp [Record.mentions, sleeping_record]

/-- Witness of C4 (amended): a failing read of handle 100 and a failing write to
handle 101 before any pipe exists, each behind one closed poll of the gate. -/
theorem unclassified_logs_witness :
    (GateOpens (installed_from 1) "ReadFile" 1 ∧ 1 < 2 ∧
      GateOpens (installed_from 1) "WriteFile" 1 ∧
      read_args.hFile ∉ attach.read_pipes ∧ write_args.hFile ∉ attach.write_pipes) ∧
    (∃ r, ReadFile_Hooked sim_fail (installed_from 1) 2 read_args attach = some r ∧
      logs r.events = List.replicate 1 (sleeping_record "ReadFile") ++
        (if (sim_fail.ReadFile read_args attach.mem).1 = FALSE then
          [⟨Level.warn, "Failed to read from file \x7b\x7d", [Arg.ptr read_args.hFile]⟩]
          else []) ∧
      (∀ l ∈ logs r.events, ∀ b, l.mentions (Arg.text b) = false)) ∧
    (∃ r, WriteFile_Hooked sim_fail (installed_from 1) 2 write_args attach = some r ∧
      logs r.events = List.replicate 1 (sleeping_record "WriteFile") ++
        (if (sim_fail.WriteFile write_args attach.mem).1 = FALSE then
          [⟨Level.warn, "Failed to write to file", []⟩] else []) ∧
      (∀ l ∈ logs r.events, ∀ b, l.mentions (Arg.text b) = false)) :=
  ⟨⟨by decide, by decide, by decide, by decide, by decide⟩,
    unclassified_logs sim_fail (installed_from 1) 1 1 2 read_args write_args attach
      (by decide) (by decide) (by decide) (by decide) (by decide) (by decide)⟩

/-! ## The registry only grows -/

theorem ReadFile_Hooked_grows (env : Env) (is_hooked : String → Nat → Bool) (fuel : Nat)
    (a : ReadFileArgs) (s : State) (r : Result BOOL)
    (h : ReadFile_Hooked env is_hooked fuel a s = some r) :
    s.read_pipes ⊆ r.st.read_pipes ∧ s.write_pipes ⊆ r.st.write_pipes := by
  unfold ReadFile_Hooked at h
  cases hg : GET_ORIGINAL_FUNCTION is_hooked Symbol.ReadFile fuel s with
  | none => simp [hg] at h
  | some p =>
    obtain ⟨s0, ev0⟩ := p
    have hs0 := GET_ORIGINAL_FUNCTION_frame _ _ _ _ _ _ hg
    subst hs0
    simp only [hg] at h
    split_ifs at h
    · split at h <;> cases h <;> simp
    · split at h <;> cases h <;> simp
    · cases h; simp
    · cases h; simp

theorem WriteFile_Hooked_grows (env : Env) (is_hooked : String → Nat → Bool) (fuel : Nat)
    (a : WriteFileArgs) (s : State) (r : Result BOOL)
    (h : WriteFile_Hooked env is_hooked fuel a s = some r) :
    s.read_pipes ⊆ r.st.read_pipes ∧ s.write_pipes ⊆ r.st.write_pipes := by
  unfold WriteFile_Hooked at h
  cases hg : GET_ORIGINAL_FUNCTION is_hooked Symbol.WriteFile fuel s with
  | none => simp [hg] at h
  | some p =>
    obtain ⟨s0, ev0⟩ := p
    have hs0 := GET_ORIGINAL_FUNCTION_frame _ _ _ _ _ _ hg
    subst hs0
    simp only [hg] at h
    split_ifs at h
    · split at h <;> cases h <;> simp
    · split at h <;> cases h <;> simp
    · cases h; simp
    · cases h; simp

theorem DuplicateHandle_Hooked_grows (env : Env) (is_hooked : String → Nat → Bool)
    (fuel : Nat) (a : DuplicateHandleArgs) (s : State) (r : Result BOOL)
    (h : DuplicateHandle_Hooked env is_hooked fuel a s = some r) :
    s.read_pipes ⊆ r.st.read_pipes ∧ s.write_pipes ⊆ r.st.write_pipes := by
  unfold DuplicateHandle_Hooked at h
  cases hg : GET_ORIGINAL_FUNCTION is_hooked Symbol.DuplicateHandle fuel s with
  | none => simp [hg] at h
  | some p =>
    obtain ⟨s0, ev0⟩ := p
    have hs0 := GET_ORIGINAL_FUNCTION_frame _ _ _ _ _ _ hg
    subst hs0
    simp only [hg] at h
    split at h
    · cases h; simp
    · by_cases hc : (env.DuplicateHandle a (resolve s Symbol.DuplicateHandle).mem).1 ≠ 0 ∧
          a.hSourceHandle ≠ 0 ∧ a.lpTargetHandle ≠ 0
      · rw [if_pos hc] at h
        cases h
        by_cases hr : a.hSourceHandle ∈ s.read_pipes <;>
          by_cases hw : a.hSourceHandle ∈ s.write_pipes <;>
          simp [hr, hw, Finset.subset_insert]
      · rw [if_neg hc] at h
        cases h
        simp

theorem CreatePipe_Hooked_grows (env : Env) (is_hooked : String → Nat → Bool)
    (fuel : Nat) (a : CreatePipeArgs) (s : State) (r : Result BOOL)
    (h : CreatePipe_Hooked env is_hooked fuel a s = some r) :
    s.read_pipes ⊆ r.st.read_pipes ∧ s.write_pipes ⊆ r.st.write_pipes := by
  unfold CreatePipe_Hooked at h
  cases hg : GET_ORIGINAL_FUNCTION is_hooked Symbol.CreatePipe fuel s with
  | none => simp [hg] at h
  | some p =>
    obtain ⟨s0, ev0⟩ := p
    have hs0 := GET_ORIGINAL_FUNCTION_frame _ _ _ _ _ _ hg
    subst hs0
    simp only [hg] at h
    split at h
    · by_cases hc : (env.CreatePipe a (resolve s Symbol.CreatePipe).mem).1 ≠ 0 ∧
          a.hReadPipe ≠ 0 ∧ a.hWritePipe ≠ 0
      · rw [if_pos hc] at h
        cases h
        simp [Finset.subset_insert]
      · rw [if_neg hc] at h
        cases h
        simp
    · cases h; simp

theorem CreateNamedPipeA_Hooked_frame (env : Env) (is_hooked : String → Nat → Bool)
    (fuel : Nat) (a : CreateNamedPipeArgs) (s : State) (r : Result HANDLE)
    (h : CreateNamedPipeA_Hooked env is_hooked fuel a s = some r) :
    r.st.read_pipes = s.read_pipes ∧ r.st.write_pipes = s.write_pipes := by
  unfold CreateNamedPipeA_Hooked at h
  cases hg : GET_ORIGINAL_FUNCTION is_hooked Symbol.CreateNamedPipeA fuel s with
  | none => simp [hg] at h
  | some p =>
    obtain ⟨s0, ev0⟩ := p
    have hs0 := GET_ORIGINAL_FUNCTION_frame _ _ _ _ _ _ hg
    subst hs0
    simp only [hg] at h
    cases h
    simp

theorem CreateNamedPipeW_Hooked_frame (env : Env) (is_hooked : String → Nat → Bool)
    (fuel : Nat) (a : CreateNamedPipeArgs) (s : State) (r : Result HANDLE)
    (h : CreateNamedPipeW_Hooked env is_hooked fuel a s = some r) :
    r.st.read_pipes = s.read_pipes ∧ r.st.write_pipes = s.write_pipes := by
  unfold CreateNamedPipeW_Hooked at h
  cases hg : GET_ORIGINAL_FUNCTION is_hooked Symbol.CreateNamedPipeW fuel s with
  | none => simp [hg] at h
  | some p =>
    obtain ⟨s0, ev0⟩ := p
    have hs0 := GET_ORIGINAL_FUNCTION_frame _ _ _ _ _ _ hg
    subst hs0
    simp only [hg] at h
    cases h
    simp

/-- Every step leaves each of the two sets a superset of what it was. -/
theorem Step_grows (env : Env) (s s' : State) (h : Step env s s') :
    s.read_pipes ⊆ s'.read_pipes ∧ s.write_pipes ⊆ s'.write_pipes := by
  cases h with
  | host m => exact ⟨Finset.Subset.refl _, Finset.Subset.refl _⟩
  | ReadFile hk fuel a _ r h => exact ReadFile_Hooked_grows env hk fuel a s r h
  | WriteFile hk fuel a _ r h => exact WriteFile_Hooked_grows env hk fuel a s r h
  | DuplicateHandle hk fuel a _ r h => exact DuplicateHandle_Hooked_grows env hk fuel a s r h
  | CreatePipe hk fuel a _ r h => exact CreatePipe_Hooked_grows env hk fuel a s r h
  | CreateNamedPipeA hk fuel a _ r h =>
    obtain ⟨h1, h2⟩ := CreateNamedPipeA_Hooked_frame env hk fuel a s r h
    rw [h1, h2]
    exact ⟨Finset.Subset.refl _, Finset.Subset.refl _⟩
  | CreateNamedPipeW hk fuel a _ r h =>
    obtain ⟨h1, h2⟩ := CreateNamedPipeW_Hooked_frame env hk fuel a s r h
    rw [h1, h2]
    exact ⟨Finset.Subset.refl _, Finset.Subset.refl _⟩

/-- C5: the registry is grow-only. Along any sequence of steps (each a write of
the host to memory or a complete call of one of the six bodies, whatever the
original primitives do and however the call ends) the read set and the write set
of the later state contain the read set and the write set of the earlier state;
hence a handle classified in a direction stays classified in it in every later
reachable state. -/
theorem registry_grow_only (env : Env) (s s' : State) (h : Reachable env s s') :
    (s.read_pipes ⊆ s'.read_pipes ∧ s.write_pipes ⊆ s'.write_pipes) ∧
    (∀ x, x ∈ s.read_pipes → x ∈ s'.read_pipes) ∧
    (∀ x, x ∈ s.write_pipes → x ∈ s'.write_pipes) := by
  have key : s.read_pipes ⊆ s'.read_pipes ∧ s.write_pipes ⊆ s'.write_pipes := by
    induction h with
    | refl => exact ⟨Finset.Subset.refl _, Finset.Subset.refl _⟩
    | tail _ hstep ih =>
      obtain ⟨h1, h2⟩ := Step_grows env _ _ hstep
      exact ⟨ih.1.trans h1, ih.2.trans h2⟩
  exact ⟨key, fun x hx => key.1 hx, fun x hx => key.2 hx⟩

/-- Witness of C5: from the state with the pipe pair 100 / 101, the handle 100 is
duplicated into 1100 and then `hello` is written to 101; the handles classified
before are still classified after. -/
theorem registry_grow_only_witness :
    Reachable sim piped duplicated_written ∧
    ((piped.read_pipes ⊆ duplicated_written.read_pipes ∧
      piped.write_pipes ⊆ duplicated_written.write_pipes) ∧
    (∀ x, x ∈ piped.read_pipes → x ∈ duplicated_written.read_pipes) ∧
    (∀ x, x ∈ piped.write_pipes → x ∈ duplicated_written.write_pipes)) :=
  have h : Reachable sim piped duplicated_written :=
    Relation.ReflTransGen.tail
      (Relation.ReflTransGen.single
        (Step.DuplicateHandle (installed_from 0) 1 dup_args piped _ rfl))
      (Step.WriteFile (installed_from 0) 1 write_args duplicated _ rfl)
  ⟨h, registry_grow_only sim piped duplicated_written h⟩

/-! ## Reads on classified handles -/

/-- Counterexample to C6 as stated: handle 100 is in the read set, the original
`ReadFile` fails and leaves the caller's buffer (which holds `hello`) as it was,
and `ReadFile_Hooked` still reads the 5 requested bytes of the buffer and logs
them at info level, before the warning. -/
theorem ReadFile_Hooked_logs_failed_read :
    stale_read_args.hFile ∈ piped.read_pipes ∧
    (sim_fail.ReadFile stale_read_args piped.mem).1 = FALSE ∧
    ∃ r, ReadFile_Hooked sim_fail (installed_from 0) 1 stale_read_args piped = some r ∧
      r.outcome = Outcome.returned FALSE ∧
      logs r.events =
        [⟨Level.info, "\x7b\x7d -> handle: \x7b\x7d, size: \x7b\x7d, buffer:\n\x7b\x7d",
            [Arg.str "ReadFile_Hooked", Arg.ptr 100, Arg.dword 5, Arg.text hello]⟩,
          ⟨Level.warn, "Failed to read from file \x7b\x7d", [Arg.ptr 100]⟩] := by
  refine ⟨by decide, by decide, _, rfl, rfl, rfl⟩

/-- C6 (amended): on a handle in the read set whose buffer holds the bytes `b`
after the forwarded call, `ReadFile_Hooked` reads the requested number of bytes
of the buffer and logs them in one info record whether the original `ReadFile`
succeeded or failed; when it failed, the warning record with the handle follows
the content record. -/
theorem ReadFile_Hooked_classified_logs (env : Env) (is_hooked : String → Nat → Bool)
    (k fuel : Nat) (a : ReadFileArgs) (s : State) (b : List Nat)
    (hgate : GateOpens is_hooked "ReadFile" k) (hfuel : k < fuel)
    (hc : a.hFile ∈ s.read_pipes)
    (hb : (env.ReadFile a s.mem).2.read_bytes a.lpBuffer a.nNumberOfBytesToRead = some b) :
    ∃ r, ReadFile_Hooked env is_hooked fuel a s = some r ∧
      r.outcome = Outcome.returned (env.ReadFile a s.mem).1 ∧
      r.events = prologue s Symbol.ReadFile k ++
        [Event.call (Call.ReadFile a), ReadFile_log a b] ++
        (if (env.ReadFile a s.mem).1 = FALSE then [ReadFile_warn a] else []) ∧
      logs r.events = List.replicate k (sleeping_record "ReadFile") ++
        [⟨Level.info, "\x7b\x7d -> handle: \x7b\x7d, size: \x7b\x7d, buffer:\n\x7b\x7d",
          [Arg.str "ReadFile_Hooked", Arg.ptr a.hFile, Arg.dword a.nNumberOfBytesToRead,
            Arg.text b]⟩] ++
        (if (env.ReadFile a s.mem).1 = FALSE then
          [⟨Level.warn, "Failed to read from file \x7b\x7d", [Arg.ptr a.hFile]⟩] else []) := by
  unfold ReadFile_Hooked
  rw [GET_ORIGINAL_FUNCTION_eq is_hooked Symbol.ReadFile k fuel s hgate hfuel]
  simp only [resolve_mem, resolve_read_pipes, if_pos hc, hb]
  by_cases hres : (env.ReadFile a s.mem).1 = 0
  · simp only [hres, if_true]
    refine ⟨_, rfl, rfl, ?_, ?_⟩
    · simp
    · simp [logs_append, logs_prologue, logs, ReadFile_log, ReadFile_warn, Symbol.name]
  · simp only [hres, if_false]
    refine ⟨_, rfl, rfl, ?_, ?_⟩
    · simp
    · simp [logs_append, logs_prologue, logs, ReadFile_log, Symbol.name]

/-- Witness of C6 (amended): the failed read of the classified handle 100. -/
theorem ReadFile_Hooked_classified_logs_witness :
    (GateOpens (installed_from 1) "ReadFile" 1 ∧ 1 < 2 ∧
      stale_read_args.hFile ∈ piped.read_pipes ∧
      (sim_fail.ReadFile stale_read_args piped.mem).2.read_bytes stale_read_args.lpBuffer
        stale_read_args.nNumberOfBytesToRead = some hello) ∧
    ∃ r, ReadFile_Hooked sim_fail (installed_from 1) 2 stale_read_args piped = some r ∧
      r.outcome = Outcome.returned (sim_fail.ReadFile stale_read_args piped.mem).1 ∧
      r.events = prologue piped Symbol.ReadFile 1 ++
        [Event.call (Call.ReadFile stale_read_args), ReadFile_log stale_read_args hello] ++
        (if (sim_fail.ReadFile stale_read_args piped.mem).1 = FALSE
          then [ReadFile_warn stale_read_args] else []) ∧
      logs r.events = List.replicate 1 (sleeping_record "ReadFile") ++
        [⟨Level.info, "\x7b\x7d -> handle: \x7b\x7d, size: \x7b\x7d, buffer:\n\x7b\x7d",
          [Arg.str "ReadFile_Hooked", Arg.ptr stale_read_args.hFile,
            Arg.dword stale_read_args.nNumberOfBytesToRead, Arg.text hello]⟩] ++
        (if (sim_fail.ReadFile stale_read_args piped.mem).1 = FALSE then
          [⟨Level.warn, "Failed to read from file \x7b\x7d", [Arg.ptr stale_read_args.hFile]⟩]
          else []) :=
  ⟨⟨by decide, by decide, by decide, rfl⟩,
    ReadFile_Hooked_classified_logs sim_fail (installed_from 1) 1 2 stale_read_args piped hello
      (by decide) (by decide) (by decide) rfl⟩

/-- C7: on a handle `R` in the read set, when the original `ReadFile` succeeds and
leaves the bytes `b` in the first `n` places of the caller's buffer (`n` the
requested byte count), `ReadFile_Hooked` returns the original's value, leaves the
memory (so the byte count behind `lpNumberOfBytesRead`) as the original left it,
and emits exactly one info record; that record comes right after the one
forwarded call and holds `R`, `n` and `b`. -/
theorem ReadFile_Hooked_logs_read (env : Env) (is_hooked : String → Nat → Bool)
    (k fuel : Nat) (a : ReadFileArgs) (s : State) (b : List Nat)
    (hgate : GateOpens is_hooked "ReadFile" k) (hfuel : k < fuel)
    (hc : a.hFile ∈ s.read_pipes)
    (hok : (env.ReadFile a s.mem).1 ≠ FALSE)
    (hb : (env.ReadFile a s.mem).2.read_bytes a.lpBuffer a.nNumberOfBytesToRead = some b) :
    ∃ r, ReadFile_Hooked env is_hooked fuel a s = some r ∧
      r.outcome = Outcome.returned (env.ReadFile a s.mem).1 ∧
      r.st.mem = (env.ReadFile a s.mem).2 ∧
      r.st.mem.dword a.lpNumberOfBytesRead = (env.ReadFile a s.mem).2.dword a.lpNumberOfBytesRead ∧
      r.events = prologue s Symbol.ReadFile k ++
        [Event.call (Call.ReadFile a),
          Event.log Level.info
            "\x7b\x7d -> handle: \x7b\x7d, size: \x7b\x7d, buffer:\n\x7b\x7d"
            [Arg.str "ReadFile_Hooked", Arg.ptr a.hFile, Arg.dword a.nNumberOfBytesToRead,
              Arg.text b]] ∧
      calls r.events = [Call.ReadFile a] ∧
      (logs r.events).filter (fun l => decide (l.level = Level.info)) =
        [⟨Level.info, "\x7b\x7d -> handle: \x7b\x7d, size: \x7b\x7d, buffer:\n\x7b\x7d",
          [Arg.str "ReadFile_Hooked", Arg.ptr a.hFile, Arg.dword a.nNumberOfBytesToRead,
            Arg.text b]⟩] := by
  have hok' : ¬ (env.ReadFile a s.mem).1 = 0 := hok
  unfold ReadFile_Hooked
  rw [GET_ORIGINAL_FUNCTION_eq is_hooked Symbol.ReadFile k fuel s hgate hfuel]
  simp only [resolve_mem, resolve_read_pipes, if_pos hc, hb, hok', if_false]
  refine ⟨_, rfl, rfl, rfl, rfl, ?_, ?_, ?_⟩
  · simp [ReadFile_log]
  · simp [calls_append, calls_prologue, calls, ReadFile_log]
  · simp [logs_append, logs_prologue, logs, ReadFile_log, List.filter_append,
      List.filter_replicate, sleeping_record]

/-- Witness of C7, the scenario of the specification: the pipe pair 100 / 101 is
created, `hello` is written to 101, and a read of up to 5 bytes from 100 logs the
handle 100, the size 5 and the text `hello`, and hands the byte count 5 back. -/
theorem ReadFile_Hooked_logs_read_witness :
    (GateOpens (installed_from 2) "ReadFile" 2 ∧ 2 < 3 ∧
      read_args.hFile ∈ written.read_pipes ∧
      (sim.ReadFile read_args written.mem).1 ≠ FALSE ∧
      (sim.ReadFile read_args written.mem).2.read_bytes read_args.lpBuffer
        read_args.nNumberOfBytesToRead = some hello ∧
      (sim.ReadFile read_args written.mem).2.dword read_args.lpNumberOfBytesRead = some 5) ∧
    ∃ r, ReadFile_Hooked sim (installed_from 2) 3 read_args written = some r ∧
      r.outcome = Outcome.returned (sim.ReadFile read_args written.mem).1 ∧
      r.st.mem = (sim.ReadFile read_args written.mem).2 ∧
      r.st.mem.dword read_args.lpNumberOfBytesRead =
        (sim.ReadFile read_args written.mem).2.dword read_args.lpNumberOfBytesRead ∧
      r.events = prologue written Symbol.ReadFile 2 ++
        [Event.call (Call.ReadFile read_args),
          Event.log Level.info
            "\x7b\x7d -> handle: \x7b\x7d, size: \x7b\x7d, buffer:\n\x7b\x7d"
            [Arg.str "ReadFile_Hooked", Arg.ptr read_args.hFile,
              Arg.dword read_args.nNumberOfBytesToRead, Arg.text hello]] ∧
      calls r.events = [Call.ReadFile read_args] ∧
      (logs r.events).filter (fun l => decide (l.level = Level.info)) =
        [⟨Level.info, "\x7b\x7d -> handle: \x7b\x7d, size: \x7b\x7d, buffer:\n\x7b\x7d",
          [Arg.str "ReadFile_Hooked", Arg.ptr read_args.hFile,
            Arg.dword read_args.nNumberOfBytesToRead, Arg.text hello]⟩] :=
  ⟨⟨by decide, by decide, by decide, by decide, rfl, rfl⟩,
    ReadFile_Hooked_logs_read sim (installed_from 2) 2 3 read_args written hello
      (by decide) (by decide) (by decide) (by decide) rfl⟩

/-! ## Named pipe servers -/

/-- C8: for a call of `CreateNamedPipeA_Hooked` whose name argument renders as `N`,
and for a call of `CreateNamedPipeW_Hooked` whose wide name argument is `N`,
whatever the original returns (a handle or the failure value) the body returns
that value, emits exactly one info record, which holds the name (for the wide
variant as converted by `to_str`), and leaves the read set and the write set
unchanged. -/
theorem CreateNamedPipe_Hooked_logs_name (env : Env) (is_hooked : String → Nat → Bool)
    (ka kw fuel : Nat) (a : CreateNamedPipeArgs) (s : State) (N Nw : List Nat)
    (hgateA : GateOpens is_hooked "CreateNamedPipeA" ka) (hfuelA : ka < fuel)
    (hgateW : GateOpens is_hooked "CreateNamedPipeW" kw) (hfuelW : kw < fuel)
    (hN : s.mem.cstr a.lpName = N) (hNw : s.mem.wstr a.lpName = Nw) :
    (∃ r, CreateNamedPipeA_Hooked env is_hooked fuel a s = some r ∧
      r.outcome = Outcome.returned (env.CreateNamedPipeA a s.mem).1 ∧
      (logs r.events).filter (fun l => decide (l.level = Level.info)) =
        [⟨Level.info, "\x7b\x7d -> name: \x7b\x7d",
          [Arg.str "CreateNamedPipeA_Hooked", Arg.text N]⟩] ∧
      r.st.read_pipes = s.read_pipes ∧ r.st.write_pipes = s.write_pipes) ∧
    (∃ r, CreateNamedPipeW_Hooked env is_hooked fuel a s = some r ∧
      r.outcome = Outcome.returned (env.CreateNamedPipeW a s.mem).1 ∧
      (logs r.events).filter (fun l => decide (l.level = Level.info)) =
        [⟨Level.info, "\x7b\x7d -> name: \x7b\x7d",
          [Arg.str "CreateNamedPipeW_Hooked", Arg.text (env.to_str Nw)]⟩] ∧
      r.st.read_pipes = s.read_pipes ∧ r.st.write_pipes = s.write_pipes) := by
  subst hN hNw
  constructor
  · unfold CreateNamedPipeA_Hooked
    rw [GET_ORIGINAL_FUNCTION_eq is_hooked Symbol.CreateNamedPipeA ka fuel s hgateA hfuelA]
    simp only [resolve_mem, resolve_read_pipes, resolve_write_pipes]
    refine ⟨_, rfl, rfl, ?_, rfl, rfl⟩
    simp [logs_append, logs_prologue, logs, CreateNamedPipeA_log, List.filter_append,
      List.filter_replicate, sleeping_record]
  · unfold CreateNamedPipeW_Hooked
    rw [GET_ORIGINAL_FUNCTION_eq is_hooked Symbol.CreateNamedPipeW kw fuel s hgateW hfuelW]
    simp only [resolve_mem, resolve_read_pipes, resolve_write_pipes]
    refine ⟨_, rfl, rfl, ?_, rfl, rfl⟩
    simp [logs_append, logs_prologue, logs, CreateNamedPipeW_log, List.filter_append,
      List.filter_replicate, sleeping_record]

/-- Witness of C8: the name `\\.\pipe\test` with a kernel in which the creation of
a named pipe fails. -/
theorem CreateNamedPipe_Hooked_logs_name_witness :
    (GateOpens (installed_from 1) "CreateNamedPipeA" 1 ∧ 1 < 2 ∧
      GateOpens (installed_from 1) "CreateNamedPipeW" 1 ∧
      piped.mem.cstr named_args.lpName = pipe_test ∧
      piped.mem.wstr named_args.lpName = pipe_test) ∧
    (∃ r, CreateNamedPipeA_Hooked sim_fail (installed_from 1) 2 named_args piped = some r ∧
      r.outcome = Outcome.returned (sim_fail.CreateNamedPipeA named_args piped.mem).1 ∧
      (logs r.events).filter (fun l => decide (l.level = Level.info)) =
        [⟨Level.info, "\x7b\x7d -> name: \x7b\x7d",
          [Arg.str "CreateNamedPipeA_Hooked", Arg.text pipe_test]⟩] ∧
      r.st.read_pipes = piped.read_pipes ∧ r.st.write_pipes = piped.write_pipes) ∧
    (∃ r, CreateNamedPipeW_Hooked sim_fail (installed_from 1) 2 named_args piped = some r ∧
      r.outcome = Outcome.returned (sim_fail.CreateNamedPipeW named_args piped.mem).1 ∧
      (logs r.events).filter (fun l => decide (l.level = Level.info)) =
        [⟨Level.info, "\x7b\x7d -> name: \x7b\x7d",
          [Arg.str "CreateNamedPipeW_Hooked", Arg.text (sim_fail.to_str pipe_test)]⟩] ∧
      r.st.read_pipes = piped.read_pipes ∧ r.st.write_pipes = piped.write_pipes) :=
  ⟨⟨by decide, by decide, by decide, rfl, rfl⟩,
    CreateNamedPipe_Hooked_logs_name sim_fail (installed_from 1) 1 1 2 named_args piped
      pipe_test pipe_test (by decide) (by decide) (by decide) (by decide) rfl rfl⟩

/-! ## Writes on classified handles -/

/-- C9: on a handle `W` in the write set whose buffer holds the bytes `b` in its
first `n` places (`n` the requested byte count), `WriteFile_Hooked` returns the
original's value and emits exactly one record that holds `W`: a debug record with
`W`, `n` and `b`, placed in the trace right before the one forwarded call; when
the original signals failure, a warning record follows the forwarded call. (The
records of the gate hold the symbol name only.) -/
theorem WriteFile_Hooked_logs_write (env : Env) (is_hooked : String → Nat → Bool)
    (k fuel : Nat) (a : WriteFileArgs) (s : State) (b : List Nat)
    (hgate : GateOpens is_hooked "WriteFile" k) (hfuel : k < fuel)
    (hc : a.hFile ∈ s.write_pipes)
    (hb : s.mem.read_bytes a.lpBuffer a.nNumberOfBytesToWrite = some b) :
    ∃ r, WriteFile_Hooked env is_hooked fuel a s = some r ∧
      r.outcome = Outcome.returned (env.WriteFile a s.mem).1 ∧
      r.events = prologue s Symbol.WriteFile k ++
        [Event.log Level.debug
            "\x7b\x7d -> handle: \x7b\x7d, size: \x7b\x7d, buffer:\n\x7b\x7d"
            [Arg.str "WriteFile_Hooked", Arg.ptr a.hFile, Arg.dword a.nNumberOfBytesToWrite,
              Arg.text b],
          Event.call (Call.WriteFile a)] ++
        (if (env.WriteFile a s.mem).1 = FALSE then
          [Event.log Level.warn "Failed to write to file" []] else []) ∧
      calls r.events = [Call.WriteFile a] ∧
      (logs r.events).filter (fun l => l.mentions (Arg.ptr a.hFile)) =
        [⟨Level.debug, "\x7b\x7d -> handle: \x7b\x7d, size: \x7b\x7d, buffer:\n\x7b\x7d",
          [Arg.str "WriteFile_Hooked", Arg.ptr a.hFile, Arg.dword a.nNumberOfBytesToWrite,
            Arg.text b]⟩] := by
  unfold WriteFile_Hooked
  rw [GET_ORIGINAL_FUNCTION_eq is_hooked Symbol.WriteFile k fuel s hgate hfuel]
  simp only [resolve_mem, resolve_write_pipes, if_pos hc, hb]
  by_cases hres : (env.WriteFile a s.mem).1 = 0
  · simp only [hres, if_true]
    refine ⟨_, rfl, rfl, ?_, ?_, ?_⟩
    · simp [WriteFile_log, WriteFile_warn]
    · simp [calls_append, calls_prologue, calls, WriteFile_log, WriteFile_warn]
    · simp [logs_append, logs_prologue, logs, WriteFile_log, WriteFile_warn,
        List.filter_append, List.filter_replicate, sleeping_record, Record.mentions]
  · simp only [hres, if_false]
    refine ⟨_, rfl, rfl, ?_, ?_, ?_⟩
    · simp [WriteFile_log]
    · simp [calls_append, calls_prologue, calls, WriteFile_log]
    · simp [logs_append, logs_prologue, logs, WriteFile_log,
        List.filter_append, List.filter_replicate, sleeping_record, Record.mentions]

/-- Witness of C9: `hello` is written to the write end 101 of the simulated pipe. -/
theorem WriteFile_Hooked_logs_write_witness :
    (GateOpens (installed_from 1) "WriteFile" 1 ∧ 1 < 2 ∧
      write_args.hFile ∈ piped.write_pipes ∧
      piped.mem.read_bytes write_args.lpBuffer write_args.nNumberOfBytesToWrite = some hello) ∧
    ∃ r, WriteFile_Hooked sim (installed_from 1) 2 write_args piped = some r ∧
      r.outcome = Outcome.returned (sim.WriteFile write_args piped.mem).1 ∧
      r.events = prologue piped Symbol.WriteFile 1 ++
        [Event.log Level.debug
            "\x7b\x7d -> handle: \x7b\x7d, size: \x7b\x7d, buffer:\n\x7b\x7d"
            [Arg.str "WriteFile_Hooked", Arg.ptr write_args.hFile,
              Arg.dword write_args.nNumberOfBytesToWrite, Arg.text hello],
          Event.call (Call.WriteFile write_args)] ++
        (if (sim.WriteFile write_args piped.mem).1 = FALSE then
          [Event.log Level.warn "Failed to write to file" []] else []) ∧
      calls r.events = [Call.WriteFile write_args] ∧
      (logs r.events).filter (fun l => l.mentions (Arg.ptr write_args.hFile)) =
        [⟨Level.debug, "\x7b\x7d -> handle: \x7b\x7d, size: \x7b\x7d, buffer:\n\x7b\x7d",
          [Arg.str "WriteFile_Hooked", Arg.ptr write_args.hFile,
            Arg.dword write_args.nNumberOfBytesToWrite, Arg.text hello]⟩] :=
  ⟨⟨by decide, by decide, by decide, rfl⟩,
    WriteFile_Hooked_logs_write sim (installed_from 1) 1 2 write_args piped hello
      (by decide) (by decide) (by decide) rfl⟩

/-! ## The readiness gate -/

/-- C10: if the hook record reports the symbol `FUNC` as not installed on the
first `k` polls and as installed on the next one, then with any bound above `k`
`hook_delay` terminates; its trace holds exactly `k` diagnostic records, each
naming the symbol, and exactly `k` sleeps of 10 ms, it ends with the poll that
reported installed, and it holds neither the fetch of the original nor a
forwarded call, which `GET_ORIGINAL_FUNCTION` and the body place after it. So a
`ReadFile_Hooked` call that starts `kr` polls before the installation of
`ReadFile` completes (with a readable buffer if the handle is classified) still
forwards once, after the gate, and returns the original's value. -/
theorem readiness_gate (env : Env) (is_hooked : String → Nat → Bool) (FUNC : Symbol)
    (k kr fuel : Nat) (a : ReadFileArgs) (s : State)
    (hgate : GateOpens is_hooked FUNC.name k) (hfuel : k < fuel)
    (hgateR : GateOpens is_hooked "ReadFile" kr) (hfuelR : kr < fuel)
    (hbuf : a.hFile ∈ s.read_pipes →
      ((env.ReadFile a s.mem).2.read_bytes a.lpBuffer a.nNumberOfBytesToRead).isSome) :
    (∃ t, hook_delay is_hooked FUNC.name fuel 0 = some t ∧
      logs t = List.replicate k
        ⟨Level.debug, "\x7b\x7d -> Sleeping 10 ms", [Arg.str FUNC.name]⟩ ∧
      sleeps t = List.replicate k 10 ∧
      t.getLast? = some (Event.is_hooked FUNC.name true) ∧
      calls t = [] ∧ Event.get_hooked_fn FUNC.name ∉ t ∧
      GET_ORIGINAL_FUNCTION is_hooked FUNC fuel s = some (resolve s FUNC,
        t ++ (if s.resolved FUNC then [] else [Event.get_hooked_fn FUNC.name]))) ∧
    (∃ r t post, ReadFile_Hooked env is_hooked fuel a s = some r ∧
      hook_delay is_hooked "ReadFile" fuel 0 = some t ∧
      r.outcome = Outcome.returned (env.ReadFile a s.mem).1 ∧
      r.events = t ++ (if s.resolved Symbol.ReadFile then [] else
        [Event.get_hooked_fn "ReadFile"]) ++ Event.call (Call.ReadFile a) :: post ∧
      t.getLast? = some (Event.is_hooked "ReadFile" true) ∧
      calls r.events = [Call.ReadFile a] ∧
      (logs t).length = kr ∧ (sleeps t).length = kr) := by
  constructor
  · refine ⟨gate_trace FUNC.name k, hook_delay_eq is_hooked FUNC.name k fuel hgate hfuel,
      ?_, sleeps_gate_trace _ _, gate_trace_getLast _ _, calls_gate_trace _ _,
      get_hooked_fn_not_mem_gate_trace _ _ _, ?_⟩
    · rw [logs_gate_trace]
      rfl
    · exact GET_ORIGINAL_FUNCTION_eq is_hooked FUNC k fuel s hgate hfuel
  · obtain ⟨r, hr, hout, hcalls, _, _, _, post, hev⟩ :=
      ReadFile_Hooked_forwards env is_hooked kr fuel a s hgateR hfuelR hbuf
    refine ⟨r, gate_trace "ReadFile" kr, post, hr,
      hook_delay_eq is_hooked "ReadFile" kr fuel hgateR hfuelR, hout, ?_,
      gate_trace_getLast _ _, hcalls, ?_, ?_⟩
    · rw [hev]
      rfl
    · simp [logs_gate_trace]
    · simp [sleeps_gate_trace]

/-- Witness of C10: the hook of `ReadFile` is reported installed on the third
poll, and a read of the pipe holding `hello` is issued before that. -/
theorem readiness_gate_witness :
    (GateOpens (installed_from 2) Symbol.ReadFile.name 2 ∧ 2 < 3 ∧
      GateOpens (installed_from 2) "ReadFile" 2 ∧
      (read_args.hFile ∈ written.read_pipes →
        ((sim.ReadFile read_args written.mem).2.read_bytes read_args.lpBuffer
          read_args.nNumberOfBytesToRead).isSome)) ∧
    ((∃ t, hook_delay (installed_from 2) Symbol.ReadFile.name 3 0 = some t ∧
      logs t = List.replicate 2
        ⟨Level.debug, "\x7b\x7d -> Sleeping 10 ms", [Arg.str Symbol.ReadFile.name]⟩ ∧
      sleeps t = List.replicate 2 10 ∧
      t.getLast? = some (Event.is_hooked Symbol.ReadFile.name true) ∧
      calls t = [] ∧ Event.get_hooked_fn Symbol.ReadFile.name ∉ t ∧
      GET_ORIGINAL_FUNCTION (installed_from 2) Symbol.ReadFile 3 written =
        some (resolve written Symbol.ReadFile,
          t ++ (if written.resolved Symbol.ReadFile then []
            else [Event.get_hooked_fn Symbol.ReadFile.name]))) ∧
    (∃ r t post, ReadFile_Hooked sim (installed_from 2) 3 read_args written = some r ∧
      hook_delay (installed_from 2) "ReadFile" 3 0 = some t ∧
      r.outcome = Outcome.returned (sim.ReadFile read_args written.mem).1 ∧
      r.events = t ++ (if written.resolved Symbol.ReadFile then [] else
        [Event.get_hooked_fn "ReadFile"]) ++ Event.call (Call.ReadFile read_args) :: post ∧
      t.getLast? = some (Event.is_hooked "ReadFile" true) ∧
      calls r.events = [Call.ReadFile read_args] ∧
      (logs t).length = 2 ∧ (sleeps t).length = 2)) :=
  ⟨⟨by decide, by decide, by decide, fun _ => rfl⟩,
    readiness_gate sim (installed_from 2) Symbol.ReadFile 2 2 3 read_args written
      (by decide) (by decide) (by decide) (by decide) (fun _ => rfl)⟩

/-- With a hook record that never reports the symbol as installed, the gate stays
closed whatever the bound: `hook_delay` has no timeout. -/
theorem ReadFile_Hooked_blocks (env : Env) (fuel : Nat) (a : ReadFileArgs) (s : State) :
    ReadFile_Hooked env never_installed fuel a s = none := by
  simp [ReadFile_Hooked, GET_ORIGINAL_FUNCTION, hook_delay_closed]

/-! ## NULL is never classified -/

theorem ReadFile_Hooked_frame (env : Env) (is_hooked : String → Nat → Bool) (fuel : Nat)
    (a : ReadFileArgs) (s : State) (r : Result BOOL)
    (h : ReadFile_Hooked env is_hooked fuel a s = some r) :
    r.st.read_pipes = s.read_pipes ∧ r.st.write_pipes = s.write_pipes := by
  unfold ReadFile_Hooked at h
  cases hg : GET_ORIGINAL_FUNCTION is_hooked Symbol.ReadFile fuel s with
  | none => simp [hg] at h
  | some p =>
    obtain ⟨s0, ev0⟩ := p
    have hs0 := GET_ORIGINAL_FUNCTION_frame _ _ _ _ _ _ hg
    subst hs0
    simp only [hg] at h
    split_ifs at h
    · split at h <;> cases h <;> simp
    · split at h <;> cases h <;> simp
    · cases h; simp
    · cases h; simp

theorem WriteFile_Hooked_frame (env : Env) (is_hooked : String → Nat → Bool) (fuel : Nat)
    (a : WriteFileArgs) (s : State) (r : Result BOOL)
    (h : WriteFile_Hooked env is_hooked fuel a s = some r) :
    r.st.read_pipes = s.read_pipes ∧ r.st.write_pipes = s.write_pipes := by
  unfold WriteFile_Hooked at h
  cases hg : GET_ORIGINAL_FUNCTION is_hooked Symbol.WriteFile fuel s with
  | none => simp [hg] at h
  | some p =>
    obtain ⟨s0, ev0⟩ := p
    have hs0 := GET_ORIGINAL_FUNCTION_frame _ _ _ _ _ _ hg
    subst hs0
    simp only [hg] at h
    split_ifs at h
    · split at h <;> cases h <;> simp
    · split at h <;> cases h <;> simp
    · cases h; simp
    · cases h; simp

theorem DuplicateHandle_Hooked_NullFree (env : Env) (is_hooked : String → Nat → Bool)
    (fuel : Nat) (a : DuplicateHandleArgs) (s : State) (r : Result BOOL)
    (henv : NoNullHandles env) (hs : NullFree s)
    (h : DuplicateHandle_Hooked env is_hooked fuel a s = some r) : NullFree r.st := by
  obtain ⟨h0r, h0w⟩ := hs
  unfold DuplicateHandle_Hooked at h
  cases hg : GET_ORIGINAL_FUNCTION is_hooked Symbol.DuplicateHandle fuel s with
  | none => simp [hg] at h
  | some p =>
    obtain ⟨s0, ev0⟩ := p
    have hs0 := GET_ORIGINAL_FUNCTION_frame _ _ _ _ _ _ hg
    subst hs0
    simp only [hg, resolve_mem] at h
    split at h
    · cases h
      exact ⟨by simpa using h0r, by simpa using h0w⟩
    · rename_i target htarget
      by_cases hc : (env.DuplicateHandle a s.mem).1 ≠ 0 ∧
          a.hSourceHandle ≠ 0 ∧ a.lpTargetHandle ≠ 0
      · rw [if_pos hc] at h
        cases h
        have ht : target ≠ 0 := by
          intro h0
          apply henv.2 a s.mem hc.1
          simpa [h0] using htarget
        by_cases hr : a.hSourceHandle ∈ s.read_pipes <;>
          by_cases hw : a.hSourceHandle ∈ s.write_pipes <;>
          simp [NullFree, hr, hw, h0r, h0w, ht.symm]
      · rw [if_neg hc] at h
        cases h
        exact ⟨by simpa using h0r, by simpa using h0w⟩

theorem CreatePipe_Hooked_NullFree (env : Env) (is_hooked : String → Nat → Bool)
    (fuel : Nat) (a : CreatePipeArgs) (s : State) (r : Result BOOL)
    (henv : NoNullHandles env) (hs : NullFree s)
    (h : CreatePipe_Hooked env is_hooked fuel a s = some r) : NullFree r.st := by
  obtain ⟨h0r, h0w⟩ := hs
  unfold CreatePipe_Hooked at h
  cases hg : GET_ORIGINAL_FUNCTION is_hooked Symbol.CreatePipe fuel s with
  | none => simp [hg] at h
  | some p =>
    obtain ⟨s0, ev0⟩ := p
    have hs0 := GET_ORIGINAL_FUNCTION_frame _ _ _ _ _ _ hg
    subst hs0
    simp only [hg, resolve_mem] at h
    split at h
    · rename_i rd wr hrd hwr
      by_cases hc : (env.CreatePipe a s.mem).1 ≠ 0 ∧ a.hReadPipe ≠ 0 ∧ a.hWritePipe ≠ 0
      · rw [if_pos hc] at h
        cases h
        have h1 : rd ≠ 0 := by
          intro h0
          apply (henv.1 a s.mem hc.1).1
          simpa [h0] using hrd
        have h2 : wr ≠ 0 := by
          intro h0
          apply (henv.1 a s.mem hc.1).2
          simpa [h0] using hwr
        simp [NullFree, h0r, h0w, h1.symm, h2.symm]
      · rw [if_neg hc] at h
        cases h
        exact ⟨by simpa using h0r, by simpa using h0w⟩
    · cases h
      exact ⟨by simpa using h0r, by simpa using h0w⟩

/-- With a kernel that never hands out NULL as a handle, every step keeps NULL
out of both sets. -/
theorem NullFree_of_Step (env : Env) (s s' : State) (henv : NoNullHandles env)
    (hs : NullFree s) (h : Step env s s') : NullFree s' := by
  cases h with
  | host m => exact hs
  | ReadFile hk fuel a _ r h =>
    obtain ⟨h1, h2⟩ := ReadFile_Hooked_frame env hk fuel a s r h
    exact ⟨by rw [h1]; exact hs.1, by rw [h2]; exact hs.2⟩
  | WriteFile hk fuel a _ r h =>
    obtain ⟨h1, h2⟩ := WriteFile_Hooked_frame env hk fuel a s r h
    exact ⟨by rw [h1]; exact hs.1, by rw [h2]; exact hs.2⟩
  | DuplicateHandle hk fuel a _ r h =>
    exact DuplicateHandle_Hooked_NullFree env hk fuel a s r henv hs h
  | CreatePipe hk fuel a _ r h =>
    exact CreatePipe_Hooked_NullFree env hk fuel a s r henv hs h
  | CreateNamedPipeA hk fuel a _ r h =>
    obtain ⟨h1, h2⟩ := CreateNamedPipeA_Hooked_frame env hk fuel a s r h
    exact ⟨by rw [h1]; exact hs.1, by rw [h2]; exact hs.2⟩
  | CreateNamedPipeW hk fuel a _ r h =>
    obtain ⟨h1, h2⟩ := CreateNamedPipeW_Hooked_frame env hk fuel a s r h
    exact ⟨by rw [h1]; exact hs.1, by rw [h2]; exact hs.2⟩

/-- With a kernel that never hands out NULL as a handle, NULL is in neither set
in every state reachable from a state where it is in neither set, in particular
from the empty registry at process attach. -/
theorem NullFree_of_Reachable (env : Env) (s s' : State) (henv : NoNullHandles env)
    (hs : NullFree s) (h : Reachable env s s') : NullFree s' := by
  induction h with
  | refl => exact hs
  | tail _ hstep ih => exact NullFree_of_Step env _ _ henv ih hstep

theorem NullFree_attach : NullFree attach := by
  constructor <;> simp [attach]

end PipeSpy
